import Mathlib

/-!
StoryForge writing-excellence core: shallow embedding and verification.

This file embeds, in Lean 4, the core of the StoryForge writing-excellence
engine:

* `src/services/draft-evaluator.ts`   (`DraftEvaluator`)
* `src/services/mechanical-writer.ts` (`ExcellenceEnforcer`, second document)
* `src/services/iteration-manager.ts` (`IterationManager`)

Modelling conventions:

* JavaScript numbers are modelled as `JsNum := Option ℚ`: `some q` is an
  ordinary (finite, non-NaN) number modelled as an exact rational, `none` is
  `NaN`.  Every division in the evaluator has a zero numerator whenever its
  denominator is zero (counts over an empty token/sentence/word list), so a
  zero denominator always produces `NaN` (0/0) in JavaScript, modelled as
  `none`.  All comparisons on `NaN` are `false`, as in JavaScript;
  arithmetic on `NaN` yields `NaN`.  IEEE-754 rounding error of doubles is
  not modelled (the doubles are modelled as exact rationals).
* Strings are processed as `List Char`.  `toLowerCase` is modelled by
  `Char.toLower` (the source texts are ASCII).  The regex classes `\w`, `\s`
  of the source are modelled by `isWordChar` / `isSpaceChar`.
* The external rewriter (`improveText` of `openai-service.ts`, an LLM call)
  is modelled as an oracle `Rewriter := ℕ → RewriteRequest → Option String`:
  given a call counter and the request, it returns `some text` on success or
  `none` for a thrown error.  The call counter is threaded through the code
  so that the oracle can behave differently on every call, covering any
  external behaviour including failures and degraded rewrites.
* `console.log`, `Date` timestamps and the fixed inter-iteration delay are
  side effects with no influence on the computed data; timestamps are
  omitted from the snapshot record, and messages are modelled as a small
  inductive type carrying the same data the source formats into strings.
-/

/-! ## JavaScript numbers -/

/-- A JavaScript number: `some q` a finite value (exact rational), `none` NaN. -/
abbrev JsNum := Option ℚ

/-- Embed a rational as a (non-NaN) JavaScript number. -/
def jq (q : ℚ) : JsNum := some q

/-- JS `+`: NaN propagates. -/
def jadd : JsNum → JsNum → JsNum
  | some a, some b => some (a + b)
  | _, _ => none

/-- JS `-`: NaN propagates. -/
def jsub : JsNum → JsNum → JsNum
  | some a, some b => some (a - b)
  | _, _ => none

/-- JS `*`: NaN propagates. -/
def jmul : JsNum → JsNum → JsNum
  | some a, some b => some (a * b)
  | _, _ => none

/-- JS `<`: any comparison with NaN is false. -/
def jlt : JsNum → JsNum → Bool
  | some a, some b => decide (a < b)
  | _, _ => false

/-- JS `<=`: any comparison with NaN is false. -/
def jle : JsNum → JsNum → Bool
  | some a, some b => decide (a ≤ b)
  | _, _ => false

/-- JS `>`: any comparison with NaN is false. -/
def jgt : JsNum → JsNum → Bool
  | some a, some b => decide (b < a)
  | _, _ => false

/-- JS `>=`: any comparison with NaN is false. -/
def jge : JsNum → JsNum → Bool
  | some a, some b => decide (b ≤ a)
  | _, _ => false

/-- JS `Math.round(x * 10) / 10` (round to one decimal, half toward `+∞`);
NaN propagates. -/
def jroundTenth : JsNum → JsNum :=
  Option.map (fun q => (⌊q * 10 + 1 / 2⌋ : ℤ) / 10)

/-- JS `Math.max(0, Math.min(100, x))`; `Math.min`/`Math.max` return NaN on NaN. -/
def jclampScore : JsNum → JsNum :=
  Option.map (fun q => max 0 (min 100 q))

/-- JS `Math.abs`; NaN propagates. -/
def jabs : JsNum → JsNum := Option.map (fun q => |q|)

/-- Ratio `num / den * 100` as computed by the evaluator, where `num` and
`den` are counts and `num = 0` whenever `den = 0` at every call site, so a
zero denominator gives JavaScript `0 / 0 = NaN`. -/
def ratio100 (num den : ℕ) : JsNum :=
  if den = 0 then none else some ((num : ℚ) / (den : ℚ) * 100)

/-! ## Character and string helpers (regex classes of the source) -/

/-- Regex `\w`: ASCII letters, digits, underscore. -/
def isWordChar (c : Char) : Bool :=
  (c ≥ 'a' && c ≤ 'z') || (c ≥ 'A' && c ≤ 'Z') || (c ≥ '0' && c ≤ '9') || c = '_'

/-- Regex `\s` (restricted to ASCII whitespace, all that occurs in texts). -/
def isSpaceChar (c : Char) : Bool :=
  c = ' ' || c = '\t' || c = '\n' || c = '\r' || c = '\x0b' || c = '\x0c'

/-- Sentence-terminator class `[.!?]`. -/
def isTerminatorChar (c : Char) : Bool :=
  c = '.' || c = '!' || c = '?'

/-- JS `String.prototype.toLowerCase` (ASCII). -/
def toLowerChars (l : List Char) : List Char := l.map Char.toLower

/-- Split on runs of whitespace, dropping empty pieces: the combination
`split(/\s+/).filter(w => w.length > 0)` used throughout the source.  For a
trimmed nonempty string this also equals the plain `split(/\s+/).length`
word counts used in `calculateFCRMetrics` and `validateCoherence`. -/
def splitWsAux : List Char → List Char → List (List Char)
  | [], acc => if acc.isEmpty then [] else [acc.reverse]
  | c :: rest, acc =>
    if isSpaceChar c then
      if acc.isEmpty then splitWsAux rest [] else acc.reverse :: splitWsAux rest []
    else splitWsAux rest (c :: acc)

def splitWs (l : List Char) : List (List Char) := splitWsAux l []

/-- Split on runs of sentence terminators (empty pieces are dropped; the
source drops them after trimming anyway). -/
def splitTermAux : List Char → List Char → List (List Char)
  | [], acc => if acc.isEmpty then [] else [acc.reverse]
  | c :: rest, acc =>
    if isTerminatorChar c then
      if acc.isEmpty then splitTermAux rest [] else acc.reverse :: splitTermAux rest []
    else splitTermAux rest (c :: acc)

def splitTerm (l : List Char) : List (List Char) := splitTermAux l []

/-- JS `String.prototype.trim`. -/
def trimChars (l : List Char) : List Char :=
  ((l.dropWhile isSpaceChar).reverse.dropWhile isSpaceChar).reverse

/-- JS `s.split(/\s+/).length` on a trimmed string (see `splitWs`). -/
def wordCountOf (s : List Char) : ℕ := (splitWs s).length

/-- Does `p` occur at the head of `t`?  Returns the remaining text. -/
def matchesFrom : List Char → List Char → Option (List Char)
  | [], t => some t
  | _, [] => none
  | a :: ps, b :: ts => if a = b then matchesFrom ps ts else none

/-- Word boundary before a match: start of string or a non-word character
(every phrase in the fixed tables starts with a word character). -/
def boundaryBefore : Option Char → Bool
  | none => true
  | some c => !isWordChar c

/-- Word boundary after a match: end of string or a non-word character
(every phrase in the fixed tables ends with a word character). -/
def boundaryAfter : List Char → Bool
  | [] => true
  | c :: _ => !isWordChar c

/-- One step of the global regex scan for `\b<phrase>\b` (flags `gi`,
matching on lowercased text): at each position, if both boundaries hold and
the phrase matches, count it and resume after the match (non-overlapping,
as the JS `g` flag); otherwise advance one character.  `fuel` bounds the
number of steps; each step consumes at least one character, so
`t.length + 1` fuel is always sufficient (see `countWB`). -/
def scanWB (p : List Char) : ℕ → Option Char → List Char → ℕ
  | 0, _, _ => 0
  | _ + 1, _, [] => 0
  | fuel + 1, prev, c :: rest =>
    if boundaryBefore prev then
      match matchesFrom p (c :: rest) with
      | some rest' =>
        if boundaryAfter rest' then 1 + scanWB p fuel (p.getLast?.getD c) rest'
        else scanWB p fuel (some c) rest
      | none => scanWB p fuel (some c) rest
    else scanWB p fuel (some c) rest

/-- Number of matches of `new RegExp('\\b' + phrase + '\\b', 'gi')` in `t`
(both already lowercased). -/
def countWB (p t : List Char) : ℕ :=
  scanWB p (t.length + 1) none t

/-- JS `String.prototype.includes` (substring containment). -/
def containsSub (needle : List Char) : List Char → Bool
  | [] => needle.isEmpty
  | c :: rest => needle.isPrefixOf (c :: rest) || containsSub needle rest

/-- Helper for the dialogue regex: first `"` in `l`, returning the content
before it and the remainder after it. -/
def splitAtQuote : List Char → Option (List Char × List Char)
  | [] => none
  | c :: rest =>
    if c = '\x22' then some ([], rest)
    else (splitAtQuote rest).map (fun pr => (c :: pr.1, pr.2))

/-- Matches of `/"[^"]+"/g`: scan for a `"`, require at least one non-quote
character before the closing `"`.  An opening quote whose closing quote is
missing, or immediately adjacent, yields no match there and the scan
advances one character, as the JS engine does.  `fuel` as in `scanWB`. -/
def dialogueSpansAux : ℕ → List Char → List (List Char)
  | 0, _ => []
  | _ + 1, [] => []
  | fuel + 1, c :: rest =>
    if c = '\x22' then
      match splitAtQuote rest with
      | some (content, after) =>
        if content.isEmpty then dialogueSpansAux fuel rest
        else ('\x22' :: content ++ ['\x22']) :: dialogueSpansAux fuel after
      | none => dialogueSpansAux fuel rest
    else dialogueSpansAux fuel rest

def dialogueSpans (t : List Char) : List (List Char) :=
  dialogueSpansAux (t.length + 1) t

/-! ## DraftEvaluator: data model -/

inductive Severity where
  | low | medium | high
deriving DecidableEq

inductive CoherenceType where
  | fragment | repetitive | nonsensical
deriving DecidableEq

structure AIPattern where
  pattern : String
  severity : Severity
  count : ℕ
  examples : List String
deriving DecidableEq

structure CoherenceIssue where
  type : CoherenceType
  severity : Severity
  description : String
deriving DecidableEq

structure ScoreBreakdown where
  glueWordsScore : JsNum
  showVsTellScore : JsNum
  dynamicContentScore : JsNum
  dialogueBonus : ℚ
  aiPatternBonus : ℚ
  coherencePenalty : ℚ
deriving DecidableEq

structure EvaluationMetrics where
  glueWords : JsNum
  passiveVoice : JsNum
  dialogueBalance : JsNum
  showVsTell : JsNum
  wordRepetition : JsNum
  dynamicContent : JsNum
  reflectiveContent : JsNum
  aiPatterns : List AIPattern
  aiPatternCount : ℕ
  coherenceIssues : List CoherenceIssue
  coherencePenalty : ℚ
  overallScore : JsNum
  breakdown : ScoreBreakdown
deriving DecidableEq

/-! ## DraftEvaluator: fixed configuration tables (verbatim from the source) -/

namespace DraftEvaluator

def AI_PATTERNS_high : List String :=
  ["delve into", "delving into", "dive into", "diving into",
   "robust", "leveraging", "paradigm shift", "cutting-edge",
   "state-of-the-art", "game-changer", "synergy", "holistic",
   "comprehensive", "fundamental", "essential", "crucial",
   "pivotal", "paramount", "instrumental", "integral",
   "multifaceted", "nuanced", "intricate", "complex tapestry",
   "it is important to note", "it should be noted that",
   "it is worth noting", "interestingly", "notably",
   "in conclusion", "in summary", "to summarize",
   "first and foremost", "last but not least"]

def AI_PATTERNS_medium : List String :=
  ["moreover", "furthermore", "additionally", "consequently",
   "nevertheless", "nonetheless", "subsequently", "accordingly",
   "thus", "hence", "therefore", "thereby", "wherein",
   "in light of", "with regard to", "in terms of",
   "in the context of", "in the realm of", "in the landscape of",
   "serves as", "serves to", "acts as a", "functions as",
   "plays a crucial role", "plays a vital role"]

def AI_PATTERNS_low : List String :=
  ["at the end of the day", "when all is said and done",
   "the fact of the matter", "for all intents and purposes",
   "it goes without saying", "needless to say",
   "as a matter of fact", "in actual fact",
   "the bottom line", "at this point in time"]

def GLUE_WORDS : List String :=
  ["the", "a", "an", "and", "or", "but", "in", "on", "at", "to", "for",
   "of", "with", "by", "from", "as", "is", "was", "are", "were", "been",
   "be", "have", "has", "had", "do", "does", "did", "will", "would",
   "should", "could", "may", "might", "must", "can", "that", "which",
   "who", "whom", "this", "these", "those", "it", "its", "it's",
   "very", "really", "quite", "rather", "somewhat", "just", "even",
   "still", "also", "too", "so", "then", "now", "here", "there"]

def PASSIVE_INDICATORS : List String :=
  ["was", "were", "been", "being", "is", "are", "am",
   "was able", "were able", "has been", "have been", "had been",
   "will be", "would be", "could be", "should be", "might be"]

def TELLING_INDICATORS : List String :=
  ["felt", "thought", "knew", "realized", "understood", "believed",
   "wondered", "imagined", "remembered", "forgot", "decided",
   "seemed", "appeared", "looked like", "sounded like",
   "was angry", "was sad", "was happy", "was afraid", "was nervous",
   "was excited", "was worried", "was confused", "was surprised",
   "he felt", "she felt", "they felt", "i felt",
   "he thought", "she thought", "they thought", "i thought"]

/-- The `GLUE_WORDS` as character lists (the `Set` of the source). -/
def glueL : List (List Char) := GLUE_WORDS.map String.data

/-! ## DraftEvaluator: algorithms -/

/-- Source `tokenize`: lower-case, replace every character outside `\w`, `\s`, `'`,
`-` by a space, split on whitespace, keep nonempty words. -/
def tokenize (text : List Char) : List (List Char) :=
  splitWs ((toLowerChars text).map
    (fun c => if isWordChar c || isSpaceChar c || c = '\x27' || c = '-' then c else ' '))

/-- Source `splitSentences`: split on runs of `[.!?]`, trim, keep nonempty. -/
def splitSentences (text : List Char) : List (List Char) :=
  ((splitTerm text).map trimChars).filter (fun s => !s.isEmpty)

/-- Source `calculateGlueWords`. -/
def calculateGlueWords (words : List (List Char)) : JsNum :=
  ratio100 (words.filter (fun w => glueL.contains w)).length words.length

/-- Source `calculatePassiveVoice`: total `\b<indicator>\b` matches over the whole
lowercased text, divided by the sentence count. -/
def calculatePassiveVoice (text : List Char) (sentences : List (List Char)) : JsNum :=
  let lowerText := toLowerChars text
  let passiveCount := (PASSIVE_INDICATORS.map (fun p => countWB p.data lowerText)).sum
  ratio100 passiveCount sentences.length

/-- Source `calculateDialogueBalance`: words inside `"[^"]+"` spans over all words. -/
def calculateDialogueBalance (text : List Char) : JsNum :=
  let dialogueText := List.intercalate [' '] (dialogueSpans text)
  let dialogueWords := (splitWs dialogueText).length
  let totalWords := (splitWs text).length
  ratio100 dialogueWords totalWords

/-- Source `calculateShowVsTell` (INVERTED, lower is better). -/
def calculateShowVsTell (text : List Char) : JsNum :=
  let lowerText := toLowerChars text
  let sentences := splitSentences text
  let tellingCount := (TELLING_INDICATORS.map (fun p => countWB p.data lowerText)).sum
  ratio100 tellingCount sentences.length

/-- Source `calculateWordRepetition`: for content words (length > 4, not glue)
occurring more than twice, sum `occurrences - 2`. -/
def calculateWordRepetition (words : List (List Char)) : JsNum :=
  let qualifying := words.filter (fun w => w.length > 4 && !glueL.contains w)
  let repetitionScore :=
    ((qualifying.eraseDups).map
      (fun w => let c := qualifying.count w; if c > 2 then c - 2 else 0)).sum
  ratio100 repetitionScore words.length

def dynamicWords : List String :=
  ["grabbed", "ran", "jumped", "fired", "struck", "crashed", "exploded",
   "charged", "lunged", "dove", "slammed", "burst", "raced", "fought", "attacked"]

def reflectiveWords : List String :=
  ["pondered", "considered", "reflected", "contemplated", "mused",
   "wondered", "thought", "realized", "understood", "remembered"]

/-- Source `calculateFCRMetrics`: dynamic iff short (< 15 words) or an action word
occurs as a substring; reflective iff long (> 20 words) or an introspective
word occurs as a substring. -/
def calculateFCRMetrics (text : List Char) : JsNum × JsNum :=
  let sentences := splitSentences text
  let dynamicCount := (sentences.filter (fun s =>
    wordCountOf s < 15 ||
      dynamicWords.any (fun w => containsSub w.data (toLowerChars s)))).length
  let reflectiveCount := (sentences.filter (fun s =>
    wordCountOf s > 20 ||
      reflectiveWords.any (fun w => containsSub w.data (toLowerChars s)))).length
  (ratio100 dynamicCount sentences.length, ratio100 reflectiveCount sentences.length)

/-- One severity tier of `detectAIPatterns`. -/
def detectTier (text : List Char) (sev : Severity) (patternList : List String) :
    List AIPattern :=
  let lowerText := toLowerChars text
  let sentences := splitSentences text
  patternList.filterMap (fun p =>
    let c := countWB p.data lowerText
    if c > 0 then
      let examples := ((sentences.filter
          (fun s => containsSub p.data (toLowerChars s))).take 2).map
        (fun s => String.mk (s.take 100))
      some { pattern := p, severity := sev, count := c, examples := examples }
    else none)

/-- Source `detectAIPatterns`: tiers scanned in declaration order high, medium, low
(`Object.entries` preserves insertion order). -/
def detectAIPatterns (text : List Char) : List AIPattern :=
  detectTier text .high AI_PATTERNS_high ++
  detectTier text .medium AI_PATTERNS_medium ++
  detectTier text .low AI_PATTERNS_low

/-- Source `validateCoherence`.  The unique-token check divides by the word count;
in JavaScript an empty word list gives `NaN > 0.8 = false`, and in ℚ the
division by zero gives `0 > 0.8 = false`, so the guard agrees. -/
def validateCoherence (text : List Char) (sentences : List (List Char)) :
    List CoherenceIssue :=
  let fragmentCount := (sentences.filter (fun s => wordCountOf s < 5)).length
  let fragmentIssues :=
    if (fragmentCount : ℚ) > (sentences.length : ℚ) * (3 / 10) then
      [{ type := CoherenceType.fragment, severity := Severity.high,
         description := "Too many sentence fragments detected (" ++
           toString fragmentCount ++ "/" ++ toString sentences.length ++ ")" }]
    else []
  let structures := sentences.map
    (fun s => toLowerChars (List.intercalate [' '] ((splitWs s).take 3)))
  let repetitiveIssues := (structures.eraseDups).filterMap (fun st =>
    let c := structures.count st
    if c > 3 then
      some { type := CoherenceType.repetitive, severity := Severity.medium,
             description := "Repetitive sentence structure: \"" ++ String.mk st ++
               "...\" (" ++ toString c ++ " times)" }
    else none)
  let words := tokenize text
  let nonsensicalIssues :=
    if ((words.eraseDups.length : ℚ) / (words.length : ℚ) > 8 / 10) ∧ words.length > 50 then
      [{ type := CoherenceType.nonsensical, severity := Severity.high,
         description := "Text appears to contain random or nonsensical word combinations" }]
    else []
  fragmentIssues ++ repetitiveIssues ++ nonsensicalIssues

/-- Source `calculateCoherencePenalty`: high 20, medium 10, low 5, capped at 40. -/
def calculateCoherencePenalty (issues : List CoherenceIssue) : ℚ :=
  let penalty := (issues.map (fun i =>
    match i.severity with
    | Severity.high => (20 : ℚ)
    | Severity.medium => 10
    | Severity.low => 5)).sum
  min penalty 40

/-- Source `calculateScoreBreakdown` (v2.0 algorithm): each weighted component is
rounded to one decimal; dialogue bonus 15 iff the ratio is in [30, 50];
pattern bonus 20 iff zero patterns. -/
def calculateScoreBreakdown (glueWords showVsTell dynamicContent dialogueBalance : JsNum)
    (aiPatternCount : ℕ) (coherencePenalty : ℚ) : ScoreBreakdown :=
  { glueWordsScore := jroundTenth (jmul (jsub (jq 100) glueWords) (jq (15 / 100)))
    showVsTellScore := jroundTenth (jmul (jsub (jq 100) showVsTell) (jq (25 / 100)))
    dynamicContentScore := jroundTenth (jmul dynamicContent (jq (25 / 100)))
    dialogueBonus :=
      if jge dialogueBalance (jq 30) && jle dialogueBalance (jq 50) then 15 else 0
    aiPatternBonus := if aiPatternCount = 0 then 20 else 0
    coherencePenalty := coherencePenalty }

/-- The composite score as assembled in `evaluate`: sum of the breakdown,
clamped to [0, 100], then rounded to one decimal. -/
def overallScoreOf (glueWords showVsTell dynamicContent dialogueBalance : JsNum)
    (aiPatternCount : ℕ) (coherencePenalty : ℚ) : JsNum :=
  let b := calculateScoreBreakdown glueWords showVsTell dynamicContent dialogueBalance
    aiPatternCount coherencePenalty
  jroundTenth (jclampScore
    (jsub (jadd (jadd (jadd (jadd b.glueWordsScore b.showVsTellScore)
      b.dynamicContentScore) (jq b.dialogueBonus)) (jq b.aiPatternBonus))
      (jq b.coherencePenalty)))

/-- Source `DraftEvaluator.evaluate`. -/
def evaluate (text : String) : EvaluationMetrics :=
  let t := text.data
  let words := tokenize t
  let sentences := splitSentences t
  let glueWords := calculateGlueWords words
  let passiveVoice := calculatePassiveVoice t sentences
  let dialogueBalance := calculateDialogueBalance t
  let showVsTell := calculateShowVsTell t
  let wordRepetition := calculateWordRepetition words
  let fcr := calculateFCRMetrics t
  let aiPatterns := detectAIPatterns t
  let coherenceIssues := validateCoherence t sentences
  let coherencePenalty := calculateCoherencePenalty coherenceIssues
  { glueWords := glueWords
    passiveVoice := passiveVoice
    dialogueBalance := dialogueBalance
    showVsTell := showVsTell
    wordRepetition := wordRepetition
    dynamicContent := fcr.1
    reflectiveContent := fcr.2
    aiPatterns := aiPatterns
    aiPatternCount := aiPatterns.length
    coherenceIssues := coherenceIssues
    coherencePenalty := coherencePenalty
    overallScore := overallScoreOf glueWords showVsTell fcr.1 dialogueBalance
      aiPatterns.length coherencePenalty
    breakdown := calculateScoreBreakdown glueWords showVsTell fcr.1 dialogueBalance
      aiPatterns.length coherencePenalty }

end DraftEvaluator

/-! ## ExcellenceEnforcer: data model and strategy catalog
(`mechanical-writer.ts`, `ExcellenceEnforcer` document) -/

structure ImprovementStrategy where
  name : String
  description : String
  targetMetrics : List String
  priority : ℕ
deriving DecidableEq

structure MetricImprovement where
  overallScoreDelta : JsNum
  glueWordsDelta : JsNum
  showVsTellDelta : JsNum
  dynamicContentDelta : JsNum
  dialogueBalanceDelta : JsNum
  aiPatternsDelta : ℤ
deriving DecidableEq

structure ImprovementResult where
  strategy : String
  originalText : String
  improvedText : String
  originalMetrics : EvaluationMetrics
  improvedMetrics : EvaluationMetrics
  improvement : MetricImprovement
  success : Bool
  error : Option String
deriving DecidableEq

/-- One request to the external rewriter (`improveText` of `openai-service.ts`). -/
structure RewriteRequest where
  text : String
  weakness : String
  targetMetric : String
  genre : String

/-- The external rewriting collaborator, modelled as an oracle: a function of
the global call counter and the request, returning `some newText` on success
or `none` when `improveText` throws.  Quantifying theorems over `Rewriter`
covers any external behaviour (failures, unchanged text, degraded text). -/
def Rewriter := ℕ → RewriteRequest → Option String

namespace ExcellenceEnforcer

def ai_pattern_eliminator : ImprovementStrategy :=
  { name := "AI Pattern Eliminator"
    description := "Removes all AI-detectable language patterns"
    targetMetrics := ["aiPatternCount"], priority := 10 }

def show_vs_tell_converter : ImprovementStrategy :=
  { name := "Show vs Tell Converter"
    description := "Converts telling to showing through action and behavior"
    targetMetrics := ["showVsTell"], priority := 9 }

def dialogue_fixer : ImprovementStrategy :=
  { name := "Dialogue Fixer"
    description := "Adds natural dialogue and conversational flow"
    targetMetrics := ["dialogueBalance"], priority := 8 }

def glue_word_reducer : ImprovementStrategy :=
  { name := "Glue Word Reducer"
    description := "Eliminates weak filler words and strengthens prose"
    targetMetrics := ["glueWords"], priority := 7 }

def dynamic_content_booster : ImprovementStrategy :=
  { name := "Dynamic Content Booster"
    description := "Increases action, conflict, and tension"
    targetMetrics := ["dynamicContent"], priority := 7 }

def passive_voice_eliminator : ImprovementStrategy :=
  { name := "Passive Voice Eliminator"
    description := "Converts passive constructions to active voice"
    targetMetrics := ["passiveVoice"], priority := 6 }

def sentence_variation_enhancer : ImprovementStrategy :=
  { name := "Sentence Variation Enhancer"
    description := "Improves sentence rhythm and structural diversity"
    targetMetrics := ["wordRepetition", "overallScore"], priority := 5 }

def sensory_detail_enhancer : ImprovementStrategy :=
  { name := "Sensory Detail Enhancer"
    description := "Adds concrete sensory details and specific nouns"
    targetMetrics := ["dynamicContent", "showVsTell"], priority := 5 }

/-- The strategy catalog in its declared (insertion) order. -/
def strategyCatalog : List ImprovementStrategy :=
  [ai_pattern_eliminator, show_vs_tell_converter, dialogue_fixer,
   glue_word_reducer, dynamic_content_booster, passive_voice_eliminator,
   sentence_variation_enhancer, sensory_detail_enhancer]

/-- The `needed` list of `determineStrategies`: the conditional pushes, in
source order. -/
def neededStrategies (metrics : EvaluationMetrics) : List ImprovementStrategy :=
  (if metrics.aiPatternCount > 0 then [ai_pattern_eliminator] else []) ++
  (if jgt metrics.showVsTell (jq 10) then [show_vs_tell_converter] else []) ++
  (if jlt metrics.dialogueBalance (jq 30) || jgt metrics.dialogueBalance (jq 50) then
    [dialogue_fixer] else []) ++
  (if jgt metrics.glueWords (jq 40) then [glue_word_reducer] else []) ++
  (if jlt metrics.dynamicContent (jq 70) then [dynamic_content_booster] else []) ++
  (if jgt metrics.passiveVoice (jq 5) then [passive_voice_eliminator] else []) ++
  (if jlt metrics.overallScore (jq 90) then [sentence_variation_enhancer] else []) ++
  (if jlt metrics.dynamicContent (jq 75) || jgt metrics.showVsTell (jq 8) then
    [sensory_detail_enhancer] else [])

/-- Source `determineStrategies`: build `needed`, then
`needed.sort((a, b) => b.priority - a.priority)`.  ECMAScript `sort` is a
stable sort; it is modelled by insertion sort on the comparator's order. -/
def determineStrategies (metrics : EvaluationMetrics) : List ImprovementStrategy :=
  List.insertionSort (fun a b => b.priority ≤ a.priority) (neededStrategies metrics)

/-- The `weaknessMap` of `applyStrategy`.  A name outside the map would give
JS `undefined`; every strategy name is in the map, and the value is only
passed through to the external rewriter, so the default is the empty string. -/
def weaknessMap : String → String
  | "AI Pattern Eliminator" => "ai_patterns"
  | "Show vs Tell Converter" => "show_vs_tell"
  | "Dialogue Fixer" => "dialogue_balance"
  | "Glue Word Reducer" => "glue_words"
  | "Dynamic Content Booster" => "dynamic_content"
  | "Passive Voice Eliminator" => "passive_voice"
  | "Sentence Variation Enhancer" => "sentence_variation"
  | "Sensory Detail Enhancer" => "sensory_details"
  | _ => ""

/-- JS `Number.prototype.toFixed(1)`, rendered from the exact rational
(the float-decimal corner cases of `toFixed` are not modelled; the result is
only interpolated into the request shown to the external rewriter). -/
def toFixed1 : JsNum → String
  | none => "NaN"
  | some q =>
    let n : ℤ := Rat.floor (q * 10 + 1 / 2)
    if n < 0 then "-" ++ toString ((-n) / 10) ++ "." ++ toString ((-n) % 10)
    else toString (n / 10) ++ "." ++ toString (n % 10)

/-- Source `getTargetMetricDescription`. -/
def getTargetMetricDescription (metricName : String) (m : EvaluationMetrics) : String :=
  if metricName = "aiPatternCount" then
    "Eliminate all " ++ toString m.aiPatternCount ++ " AI patterns. Target: 0 patterns."
  else if metricName = "showVsTell" then
    "Reduce telling from " ++ toFixed1 m.showVsTell ++ "% to <10%. Show through action."
  else if metricName = "dialogueBalance" then
    "Adjust dialogue from " ++ toFixed1 m.dialogueBalance ++ "% to 30-50% range."
  else if metricName = "glueWords" then
    "Reduce glue words from " ++ toFixed1 m.glueWords ++ "% to <40%."
  else if metricName = "dynamicContent" then
    "Increase dynamic content from " ++ toFixed1 m.dynamicContent ++ "% to >70%."
  else if metricName = "passiveVoice" then
    "Reduce passive voice from " ++ toFixed1 m.passiveVoice ++ "% to <5%."
  else if metricName = "wordRepetition" then
    "Reduce word repetition from " ++ toFixed1 m.wordRepetition ++ "% to <2%."
  else if metricName = "overallScore" then
    "Improve overall score from " ++ toFixed1 m.overallScore ++ " to 90%+."
  else "Improve " ++ metricName

/-- The message of the error thrown by `improveText` and caught in
`applyStrategy`. -/
def improveTextError : String := "Text improvement failed"

/-- The all-zero `MetricImprovement` of the failure branch. -/
def zeroImprovement : MetricImprovement :=
  { overallScoreDelta := jq 0, glueWordsDelta := jq 0, showVsTellDelta := jq 0
    dynamicContentDelta := jq 0, dialogueBalanceDelta := jq 0, aiPatternsDelta := 0 }

open DraftEvaluator in
/-- The call `improveText({ text, weakness, targetMetric, genre })` of
`applyStrategy`, routed to the oracle. -/
def rewriterResponse (rw : Rewriter) (idx : ℕ) (text : String)
    (strategy : ImprovementStrategy) (genre : String) : Option String :=
  rw idx
    { text := text
      weakness := weaknessMap strategy.name
      targetMetric :=
        getTargetMetricDescription (strategy.targetMetrics.headD ("")) (evaluate text)
      genre := genre }

open DraftEvaluator in
/-- Source `applyStrategy`: evaluate, call the external rewriter, and either compute
the per-metric deltas (success) or return the original text with zero deltas
and the error (failure, recovered locally).  Returns the advanced call
counter. -/
def applyStrategy (rw : Rewriter) (idx : ℕ) (text : String)
    (strategy : ImprovementStrategy) (genre : String) : ImprovementResult × ℕ :=
  let originalMetrics := evaluate text
  match rewriterResponse rw idx text strategy genre with
  | some improvedText =>
    let improvedMetrics := evaluate improvedText
    ({ strategy := strategy.name, originalText := text, improvedText := improvedText
       originalMetrics := originalMetrics, improvedMetrics := improvedMetrics
       improvement :=
        { overallScoreDelta := jsub improvedMetrics.overallScore originalMetrics.overallScore
          glueWordsDelta := jsub originalMetrics.glueWords improvedMetrics.glueWords
          showVsTellDelta := jsub originalMetrics.showVsTell improvedMetrics.showVsTell
          dynamicContentDelta := jsub improvedMetrics.dynamicContent originalMetrics.dynamicContent
          dialogueBalanceDelta := jsub (jabs (jsub improvedMetrics.dialogueBalance (jq 40)))
            (jabs (jsub originalMetrics.dialogueBalance (jq 40)))
          aiPatternsDelta :=
            (originalMetrics.aiPatternCount : ℤ) - (improvedMetrics.aiPatternCount : ℤ) }
       success := true, error := none }, idx + 1)
  | none =>
    ({ strategy := strategy.name, originalText := text, improvedText := text
       originalMetrics := originalMetrics, improvedMetrics := originalMetrics
       improvement := zeroImprovement
       success := false, error := some improveTextError }, idx + 1)

/-- The acceptance test of `enforceExcellence`:
`result.success && result.improvement.overallScoreDelta >= 0`. -/
def acceptedResult (result : ImprovementResult) : Bool :=
  result.success && jge result.improvement.overallScoreDelta (jq 0)

/-- The commit of one loop step of `enforceExcellence`:
`currentText = result.improvedText` exactly when the result is accepted. -/
def stepText (currentText : String) (result : ImprovementResult) : String :=
  if acceptedResult result then result.improvedText else currentText

/-- The accumulation of one loop step of `enforceExcellence`:
`totalImprovement += result.improvement.overallScoreDelta` exactly when the
result is accepted. -/
def stepImprovement (totalImprovement : JsNum) (result : ImprovementResult) : JsNum :=
  if acceptedResult result then jadd totalImprovement result.improvement.overallScoreDelta
  else totalImprovement

open DraftEvaluator in
/-- The strategy loop of `enforceExcellence`: apply each strategy in turn,
keep the result only if accepted, and break as soon as the current text
scores at least 90.  Returns (final text, attempt list, total accepted
improvement, advanced call counter). -/
def enforceGo (rw : Rewriter) (genre : String) :
    List ImprovementStrategy → ℕ → String → JsNum →
    String × List ImprovementResult × JsNum × ℕ
  | [], idx, currentText, totalImprovement => (currentText, [], totalImprovement, idx)
  | strategy :: rest, idx, currentText, totalImprovement =>
    let ri := applyStrategy rw idx currentText strategy genre
    if jge (evaluate (stepText currentText ri.1)).overallScore (jq 90) then
      (stepText currentText ri.1, [ri.1], stepImprovement totalImprovement ri.1, ri.2)
    else
      let next := enforceGo rw genre rest ri.2 (stepText currentText ri.1)
        (stepImprovement totalImprovement ri.1)
      (next.1, ri.1 :: next.2.1, next.2.2.1, next.2.2.2)

structure EnforceResult where
  finalText : String
  strategies : List ImprovementResult
  totalImprovement : JsNum
deriving DecidableEq

open DraftEvaluator in
/-- Source `enforceExcellence`: take up to `maxStrategies` strategies in priority
order and run the loop. -/
def enforceExcellence (rw : Rewriter) (idx : ℕ) (text genre : String)
    (maxStrategies : ℕ) : EnforceResult × ℕ :=
  let initialMetrics := evaluate text
  let strategiesToApply := (determineStrategies initialMetrics).take maxStrategies
  let r := enforceGo rw genre strategiesToApply idx text (jq 0)
  ({ finalText := r.1, strategies := r.2.1, totalImprovement := r.2.2.1 }, r.2.2.2)

/-- Reference fold, in the words of the specification: the current text after
a list of attempts, each committed exactly when its overall-score delta was
accepted, otherwise keeping the prior text. -/
def commitFold (text : String) (rs : List ImprovementResult) : String :=
  rs.foldl stepText text

/-- Reference sum, in the words of the specification: the sum of the
accepted strategies' overall-score deltas. -/
def acceptedDeltaSum (init : JsNum) (rs : List ImprovementResult) : JsNum :=
  rs.foldl stepImprovement init

end ExcellenceEnforcer

/-! ## IterationManager: data model (`iteration-manager.ts`)

The `timestamp : Date` field of a snapshot is a wall-clock side effect with
no influence on any computation and is omitted.  The human-readable
`message` strings of `runIteration` are modelled by the inductive
`IterMessage`, each constructor carrying the data the source interpolates
into the string. -/

structure MetricChange where
  metric : String
  before : JsNum
  after : JsNum
  delta : JsNum
  improved : Bool
deriving DecidableEq

structure IterationSnapshot where
  iteration : ℕ
  text : String
  metrics : EvaluationMetrics
  strategies : List String
  improvements : List MetricChange
  locked : List String
deriving DecidableEq

structure MetricLock where
  metric : String
  targetValue : ℚ
  currentValue : JsNum
  locked : Bool
  lockedAt : Option ℕ := none
deriving DecidableEq

structure BestEverValues where
  overallScore : JsNum
  glueWords : JsNum
  passiveVoice : JsNum
  dialogueBalance : JsNum
  showVsTell : JsNum
  wordRepetition : JsNum
  dynamicContent : JsNum
  reflectiveContent : JsNum
  aiPatternCount : ℕ
  iteration : ℕ
deriving DecidableEq

structure IterationHistory where
  snapshots : List IterationSnapshot
  bestEver : BestEverValues
  locks : List MetricLock
  targetReached : Bool
  totalIterations : ℕ
  finalScore : JsNum
  totalImprovement : JsNum
deriving DecidableEq

/-- The private state of one `IterationManager` instance. -/
structure ManagerState where
  currentText : String
  genre : String
  history : IterationHistory
deriving DecidableEq

/-- Manager state together with the external world: the rewriter call
counter (the oracle's input) and the number of `enforceExcellence`
invocations performed (the observable enforcement effect). -/
structure Sys where
  mgr : ManagerState
  oracleIdx : ℕ
  enforceCalls : ℕ
deriving DecidableEq

/-- The `message` of a `runIteration` result (see the module comment). -/
inductive IterMessage where
  | maxIterationsReached
  | targetAlreadyReached
  | lockViolationsMsg (metrics : List String)
  | improvedMsg (prev next totalImprovement : JsNum)
  | noImprovementMsg (prev : JsNum)
deriving DecidableEq

structure IterResult where
  success : Bool
  improved : Bool
  snapshot : IterationSnapshot
  shouldContinue : Bool
  message : IterMessage
deriving DecidableEq

namespace IterationManager

open DraftEvaluator ExcellenceEnforcer

def MAX_ITERATIONS : ℕ := 15

def TARGET_SCORE : ℚ := 90

namespace METRIC_TARGETS

def overallScore : ℚ := 90
def glueWords : ℚ := 40
def passiveVoice : ℚ := 5
def dialogueBalanceMin : ℚ := 30
def dialogueBalanceMax : ℚ := 50
def showVsTell : ℚ := 10
def wordRepetition : ℚ := 2
def dynamicContent : ℚ := 70
def aiPatternCount : ℕ := 0

end METRIC_TARGETS

/-- Source `initializeBestEver`. -/
def initBestEver (m : EvaluationMetrics) : BestEverValues :=
  { overallScore := m.overallScore, glueWords := m.glueWords
    passiveVoice := m.passiveVoice, dialogueBalance := m.dialogueBalance
    showVsTell := m.showVsTell, wordRepetition := m.wordRepetition
    dynamicContent := m.dynamicContent, reflectiveContent := m.reflectiveContent
    aiPatternCount := m.aiPatternCount, iteration := 0 }

/-- Source `initializeLocks`: a metric locks immediately if its threshold already
holds in the initial metrics. -/
def initLocks (m : EvaluationMetrics) : List MetricLock :=
  [{ metric := "overallScore", targetValue := METRIC_TARGETS.overallScore
     currentValue := m.overallScore
     locked := jge m.overallScore (jq METRIC_TARGETS.overallScore) },
   { metric := "glueWords", targetValue := METRIC_TARGETS.glueWords
     currentValue := m.glueWords
     locked := jlt m.glueWords (jq METRIC_TARGETS.glueWords) },
   { metric := "passiveVoice", targetValue := METRIC_TARGETS.passiveVoice
     currentValue := m.passiveVoice
     locked := jlt m.passiveVoice (jq METRIC_TARGETS.passiveVoice) },
   { metric := "dialogueBalance", targetValue := 40
     currentValue := m.dialogueBalance
     locked := jge m.dialogueBalance (jq METRIC_TARGETS.dialogueBalanceMin) &&
       jle m.dialogueBalance (jq METRIC_TARGETS.dialogueBalanceMax) },
   { metric := "showVsTell", targetValue := METRIC_TARGETS.showVsTell
     currentValue := m.showVsTell
     locked := jlt m.showVsTell (jq METRIC_TARGETS.showVsTell) },
   { metric := "dynamicContent", targetValue := METRIC_TARGETS.dynamicContent
     currentValue := m.dynamicContent
     locked := jgt m.dynamicContent (jq METRIC_TARGETS.dynamicContent) },
   { metric := "aiPatternCount", targetValue := (METRIC_TARGETS.aiPatternCount : ℚ)
     currentValue := jq (m.aiPatternCount : ℚ)
     locked := decide (m.aiPatternCount = METRIC_TARGETS.aiPatternCount) }]

/-- The `switch` of `checkLockViolations`: is the (locked) lock violated by
the new metrics, beyond its per-metric tolerance? -/
def lockViolated (lock : MetricLock) (n : EvaluationMetrics) : Bool :=
  if lock.metric = "overallScore" then jlt n.overallScore (jsub lock.currentValue (jq 1))
  else if lock.metric = "glueWords" then jgt n.glueWords (jadd lock.currentValue (jq 2))
  else if lock.metric = "passiveVoice" then jgt n.passiveVoice (jadd lock.currentValue (jq 1))
  else if lock.metric = "dialogueBalance" then
    jlt n.dialogueBalance (jq METRIC_TARGETS.dialogueBalanceMin) ||
      jgt n.dialogueBalance (jq METRIC_TARGETS.dialogueBalanceMax)
  else if lock.metric = "showVsTell" then jgt n.showVsTell (jadd lock.currentValue (jq 2))
  else if lock.metric = "dynamicContent" then jlt n.dynamicContent (jsub lock.currentValue (jq 3))
  else if lock.metric = "aiPatternCount" then jgt (jq (n.aiPatternCount : ℚ)) lock.currentValue
  else false

/-- Source `checkLockViolations`: the metric names of the locked locks the new
metrics would violate, in lock-table order. -/
def checkLockViolations (locks : List MetricLock) (n : EvaluationMetrics) : List String :=
  (locks.filter (fun lock => lock.locked && lockViolated lock n)).map (fun lock => lock.metric)

/-- Source `updateBestEver` (direction-aware per metric; dialogue by distance to 40). -/
def updateBestEver (m : EvaluationMetrics) (iteration : ℕ) (best : BestEverValues) :
    BestEverValues :=
  let b1 := if jgt m.overallScore best.overallScore then
    { best with overallScore := m.overallScore, iteration := iteration } else best
  let b2 := if jlt m.glueWords b1.glueWords then { b1 with glueWords := m.glueWords } else b1
  let b3 := if jlt m.passiveVoice b2.passiveVoice then
    { b2 with passiveVoice := m.passiveVoice } else b2
  let b4 := if jlt m.showVsTell b3.showVsTell then { b3 with showVsTell := m.showVsTell } else b3
  let b5 := if jlt m.wordRepetition b4.wordRepetition then
    { b4 with wordRepetition := m.wordRepetition } else b4
  let b6 := if m.aiPatternCount < b5.aiPatternCount then
    { b5 with aiPatternCount := m.aiPatternCount } else b5
  let b7 := if jgt m.dynamicContent b6.dynamicContent then
    { b6 with dynamicContent := m.dynamicContent } else b6
  let b8 := if jgt m.reflectiveContent b7.reflectiveContent then
    { b7 with reflectiveContent := m.reflectiveContent } else b7
  if jlt (jabs (jsub m.dialogueBalance (jq 40))) (jabs (jsub b8.dialogueBalance (jq 40))) then
    { b8 with dialogueBalance := m.dialogueBalance }
  else b8

/-- One lock's step of `updateLocks`: an already-locked lock is never
touched; otherwise the current value is refreshed and the lock engages when
its threshold now holds, recording the iteration. -/
def updateLock (m : EvaluationMetrics) (iteration : ℕ) (lock : MetricLock) : MetricLock :=
  if lock.locked then lock
  else
    let nv : JsNum × Bool :=
      if lock.metric = "overallScore" then
        (m.overallScore, jge m.overallScore (jq METRIC_TARGETS.overallScore))
      else if lock.metric = "glueWords" then
        (m.glueWords, jlt m.glueWords (jq METRIC_TARGETS.glueWords))
      else if lock.metric = "passiveVoice" then
        (m.passiveVoice, jlt m.passiveVoice (jq METRIC_TARGETS.passiveVoice))
      else if lock.metric = "dialogueBalance" then
        (m.dialogueBalance, jge m.dialogueBalance (jq METRIC_TARGETS.dialogueBalanceMin) &&
          jle m.dialogueBalance (jq METRIC_TARGETS.dialogueBalanceMax))
      else if lock.metric = "showVsTell" then
        (m.showVsTell, jlt m.showVsTell (jq METRIC_TARGETS.showVsTell))
      else if lock.metric = "dynamicContent" then
        (m.dynamicContent, jgt m.dynamicContent (jq METRIC_TARGETS.dynamicContent))
      else if lock.metric = "aiPatternCount" then
        (jq (m.aiPatternCount : ℚ), decide (m.aiPatternCount = METRIC_TARGETS.aiPatternCount))
      else (jq 0, false)
    { lock with
      currentValue := nv.1
      locked := nv.2
      lockedAt := if nv.2 then some iteration else lock.lockedAt }

/-- Source `getLockedMetrics`. -/
def lockedMetricNames (locks : List MetricLock) : List String :=
  (locks.filter (fun l => l.locked)).map (fun l => l.metric)

/-- Source `calculateMetricChanges` (deltas oriented so that positive means
improvement, per metric direction). -/
def calculateMetricChanges (before after : EvaluationMetrics) : List MetricChange :=
  [{ metric := "overallScore", before := before.overallScore, after := after.overallScore
     delta := jsub after.overallScore before.overallScore
     improved := jgt after.overallScore before.overallScore },
   { metric := "glueWords", before := before.glueWords, after := after.glueWords
     delta := jsub before.glueWords after.glueWords
     improved := jlt after.glueWords before.glueWords },
   { metric := "showVsTell", before := before.showVsTell, after := after.showVsTell
     delta := jsub before.showVsTell after.showVsTell
     improved := jlt after.showVsTell before.showVsTell },
   { metric := "dynamicContent", before := before.dynamicContent, after := after.dynamicContent
     delta := jsub after.dynamicContent before.dynamicContent
     improved := jgt after.dynamicContent before.dynamicContent },
   { metric := "aiPatternCount", before := jq (before.aiPatternCount : ℚ)
     after := jq (after.aiPatternCount : ℚ)
     delta := jq ((before.aiPatternCount : ℚ) - (after.aiPatternCount : ℚ))
     improved := decide (after.aiPatternCount < before.aiPatternCount) }]

/-- Placeholder used as the default of `getLastD`; the snapshot list is
nonempty from construction on, so it is never returned. -/
def emptyMetrics : EvaluationMetrics :=
  { glueWords := none
    passiveVoice := none
    dialogueBalance := none
    showVsTell := none
    wordRepetition := none
    dynamicContent := none
    reflectiveContent := none
    aiPatterns := []
    aiPatternCount := 0
    coherenceIssues := []
    coherencePenalty := 0
    overallScore := none
    breakdown :=
      { glueWordsScore := none
        showVsTellScore := none
        dynamicContentScore := none
        dialogueBonus := 0
        aiPatternBonus := 0
        coherencePenalty := 0 } }

def defaultSnapshot : IterationSnapshot :=
  { iteration := 0, text := "", metrics := emptyMetrics, strategies := []
    improvements := [], locked := [] }

/-- Source `getCurrentSnapshot`: `snapshots[snapshots.length - 1]`. -/
def currentSnapshot (mgr : ManagerState) : IterationSnapshot :=
  mgr.history.snapshots.getLastD defaultSnapshot

/-- Source `getCurrentText`. -/
def getCurrentText (mgr : ManagerState) : String := mgr.currentText

/-- The constructor: seed snapshot 0, best-ever table and lock table from
the initial text's metrics. -/
def initManager (text genre : String) : ManagerState :=
  let m := evaluate text
  { currentText := text
    genre := genre
    history :=
      { snapshots :=
          [{ iteration := 0, text := text, metrics := m, strategies := [],
             improvements := [], locked := [] }]
        bestEver := initBestEver m
        locks := initLocks m
        targetReached := jge m.overallScore (jq TARGET_SCORE)
        totalIterations := 0
        finalScore := m.overallScore
        totalImprovement := jq 0 } }

/-- A fresh manager with the external world at call counter 0. -/
def initSys (text genre : String) : Sys :=
  { mgr := initManager text genre, oracleIdx := 0, enforceCalls := 0 }

/-- The `enforceExcellence` call made by `runIteration` on the current state. -/
def enforcedCall (rw : Rewriter) (maxStrategies : ℕ) (sys : Sys) : EnforceResult × ℕ :=
  enforceExcellence rw sys.oracleIdx sys.mgr.currentText sys.mgr.genre maxStrategies

/-- The lock violations `runIteration` finds for that call's final text. -/
def violationsOfCall (rw : Rewriter) (maxStrategies : ℕ) (sys : Sys) : List String :=
  checkLockViolations sys.mgr.history.locks (evaluate (enforcedCall rw maxStrategies sys).1.finalText)

/-- Source `runIteration`. -/
def runIteration (rw : Rewriter) (maxStrategies : ℕ) (sys : Sys) : IterResult × Sys :=
  if sys.mgr.history.totalIterations ≥ MAX_ITERATIONS then
    ({ success := false, improved := false, snapshot := currentSnapshot sys.mgr,
       shouldContinue := false, message := .maxIterationsReached }, sys)
  else if sys.mgr.history.targetReached then
    ({ success := true, improved := false, snapshot := currentSnapshot sys.mgr,
       shouldContinue := false, message := .targetAlreadyReached }, sys)
  else
    let iterationNumber := sys.mgr.history.totalIterations + 1
    let previousMetrics := (currentSnapshot sys.mgr).metrics
    let result := (enforcedCall rw maxStrategies sys).1
    let sys' : Sys :=
      { sys with
        oracleIdx := (enforcedCall rw maxStrategies sys).2
        enforceCalls := sys.enforceCalls + 1 }
    let newMetrics := evaluate result.finalText
    if (violationsOfCall rw maxStrategies sys).length > 0 then
      ({ success := false, improved := false, snapshot := currentSnapshot sys.mgr,
         shouldContinue := true,
         message := .lockViolationsMsg (violationsOfCall rw maxStrategies sys) }, sys')
    else
      let improvements := calculateMetricChanges previousMetrics newMetrics
      let improved := jgt newMetrics.overallScore previousMetrics.overallScore
      let bestEver' := updateBestEver newMetrics iterationNumber sys.mgr.history.bestEver
      let locks' := sys.mgr.history.locks.map (updateLock newMetrics iterationNumber)
      let snapshot : IterationSnapshot :=
        { iteration := iterationNumber, text := result.finalText, metrics := newMetrics,
          strategies := result.strategies.map (fun s => s.strategy),
          improvements := improvements, locked := lockedMetricNames locks' }
      let history' : IterationHistory :=
        { snapshots := sys.mgr.history.snapshots ++ [snapshot],
          bestEver := bestEver', locks := locks',
          targetReached := jge newMetrics.overallScore (jq TARGET_SCORE),
          totalIterations := iterationNumber,
          finalScore := newMetrics.overallScore,
          totalImprovement := jadd sys.mgr.history.totalImprovement result.totalImprovement }
      let currentText' := if improved then result.finalText else sys.mgr.currentText
      ({ success := true, improved := improved, snapshot := snapshot,
         shouldContinue := !jge newMetrics.overallScore (jq TARGET_SCORE) &&
           decide (iterationNumber < MAX_ITERATIONS),
         message := if improved then
             .improvedMsg previousMetrics.overallScore newMetrics.overallScore
               result.totalImprovement
           else .noImprovementMsg previousMetrics.overallScore },
       { mgr := { currentText := currentText', genre := sys.mgr.genre, history := history' },
         oracleIdx := (enforcedCall rw maxStrategies sys).2,
         enforceCalls := sys.enforceCalls + 1 })

/-- Source `runUntilTarget`: repeat `runIteration` while the result says to
continue (`shouldContinue && success`); return the history.  (The 1.5 s
inter-iteration delay is a pure side effect and is not modelled.)
Termination: a continuing iteration is a committed one, which advances the
counter by exactly one from strictly below `MAX_ITERATIONS`. -/
def runUntilTarget (rw : Rewriter) (maxStrategies : ℕ) (sys : Sys) :
    IterationHistory × Sys :=
  if h : ((runIteration rw maxStrategies sys).1.shouldContinue &&
      (runIteration rw maxStrategies sys).1.success) = true then
    runUntilTarget rw maxStrategies (runIteration rw maxStrategies sys).2
  else
    ((runIteration rw maxStrategies sys).2.mgr.history, (runIteration rw maxStrategies sys).2)
termination_by MAX_ITERATIONS - sys.mgr.history.totalIterations
decreasing_by
  unfold runIteration at h ⊢
  split_ifs at h ⊢ with h1 h2 h3 <;> simp_all <;> omega

/-- A whole run: the constructor followed by one `runIteration` per entry of
`ks` (the entry being that call's `maxStrategies` argument). -/
def runCalls (rw : Rewriter) (text genre : String) (ks : List ℕ) : Sys :=
  ks.foldl (fun sys k => (runIteration rw k sys).2) (initSys text genre)

structure Summary where
  initialScore : JsNum
  finalScore : JsNum
  totalImprovement : JsNum
  iterations : ℕ
  targetReached : Bool
  bestIteration : ℕ
  lockedMetrics : List String
deriving DecidableEq

/-- Source `getSummary`: note that `finalScore` here is the overall score of the
latest snapshot's metrics (`getCurrentMetrics`), not of `currentText`. -/
def getSummary (mgr : ManagerState) : Summary :=
  { initialScore := (mgr.history.snapshots.headD defaultSnapshot).metrics.overallScore
    finalScore := (currentSnapshot mgr).metrics.overallScore
    totalImprovement := mgr.history.totalImprovement
    iterations := mgr.history.totalIterations
    targetReached := mgr.history.targetReached
    bestIteration := mgr.history.bestEver.iteration
    lockedMetrics := lockedMetricNames mgr.history.locks }

end IterationManager

/-! ## Reference definitions following the specification's words

These are *not* translations of the source: they state, in the
specification's own words, the composite-score formula (for the refinement
claim about `calculateScoreBreakdown`/`evaluate`), the commit fold and
accepted-delta sum (stated above next to `enforceExcellence`), and the
threshold predicate of the saturated-quality scenario.  Theorems below
compare them with the embedded source. -/

/-- JS `Math.round(x * 10) / 10` on a plain rational. -/
def roundTenthQ (q : ℚ) : ℚ := ((⌊q * 10 + 1 / 2⌋ : ℤ) : ℚ) / 10

/-- Clamp to `[0, 100]` on a plain rational. -/
def clampScoreQ (q : ℚ) : ℚ := max 0 (min 100 q)

/-- Spec: `dialogueBonus = 15` iff dialogue ratio ∈ [30, 50], else 0. -/
def specDialogueBonus (dialogueBalance : ℚ) : ℚ :=
  if 30 ≤ dialogueBalance ∧ dialogueBalance ≤ 50 then 15 else 0

/-- Spec: `patternBonus = 20` iff zero patterns detected, else 0. -/
def specPatternBonus (aiPatternCount : ℕ) : ℚ :=
  if aiPatternCount = 0 then 20 else 0

/-- The composite-score formula exactly as the specification states it:
`(100 − glueWords)×0.15 + (100 − telling)×0.25 + dynamicContent×0.25 +
dialogueBonus + patternBonus − coherencePenalty`, clamped to [0, 100] and
rounded to one decimal. -/
def specScoreFormula (glueWords telling dynamicContent dialogueBalance : ℚ)
    (aiPatternCount : ℕ) (coherencePenalty : ℚ) : ℚ :=
  roundTenthQ (clampScoreQ
    ((100 - glueWords) * (15 / 100) + (100 - telling) * (25 / 100) +
      dynamicContent * (25 / 100) + specDialogueBonus dialogueBalance +
      specPatternBonus aiPatternCount - coherencePenalty))

/-- The specification's formula amended by what the source actually does:
each weighted component is rounded to one decimal *before* the sum. -/
def specScoreComponentRounded (glueWords telling dynamicContent dialogueBalance : ℚ)
    (aiPatternCount : ℕ) (coherencePenalty : ℚ) : ℚ :=
  roundTenthQ (clampScoreQ
    (roundTenthQ ((100 - glueWords) * (15 / 100)) +
      roundTenthQ ((100 - telling) * (25 / 100)) +
      roundTenthQ (dynamicContent * (25 / 100)) + specDialogueBonus dialogueBalance +
      specPatternBonus aiPatternCount - coherencePenalty))

/-- The saturated-quality hypothesis of the amended C9: every target
threshold of the claim, strengthened by the sensory-detail rule's stricter
thresholds (`dynamicContent ≥ 75` and `showVsTell ≤ 8`). -/
def satisfiesAllTargetsStrict (m : EvaluationMetrics) : Bool :=
  jlt m.glueWords (jq 40) && jlt m.passiveVoice (jq 5) &&
  jge m.dialogueBalance (jq 30) && jle m.dialogueBalance (jq 50) &&
  jlt m.showVsTell (jq 10) && jgt m.dynamicContent (jq 70) &&
  decide (m.aiPatternCount = 0) && m.coherenceIssues.isEmpty &&
  jge m.overallScore (jq 90) &&
  jge m.dynamicContent (jq 75) && jle m.showVsTell (jq 8)

/-- The implicit claim C10 as stated: some run ends with
`getSummary().finalScore` different from the evaluated overall score of
`getCurrentText()`. -/
def claimFinalScoreCanDiffer : Prop :=
  ∃ (rw : Rewriter) (text genre : String) (ks : List ℕ),
    (IterationManager.getSummary (IterationManager.runCalls rw text genre ks).mgr).finalScore ≠
      (DraftEvaluator.evaluate
        (IterationManager.runCalls rw text genre ks).mgr.currentText).overallScore

/-! ## Concrete witness data

Small texts whose evaluated metrics were chosen to exercise specific
branches, and rigged rewriters returning them. -/

/-- Scores 65: one 2-word sentence (fragment penalty 20, pattern bonus 20);
locks `glueWords`, `passiveVoice`, `showVsTell`, `dynamicContent` and
`aiPatternCount = 0` at construction. -/
def witnessBase : String := "She ran."

/-- Scores 65 with one AI pattern (`moreover`): accepted by the enforcement
delta check (delta 0) but violating the `aiPatternCount` lock. -/
def witnessPattern : String := "Moreover Kate fired guns twice."

/-- Scores 65 with `wordRepetition` 100/9 and no pattern: a committed,
non-improving enforcement result that differs from the base text. -/
def witnessRepetition : String := "Kate fired guns. Kate fired pipes. Kate fired walls."

/-- Scores 100 and satisfies every strict target threshold. -/
def witnessSaturated : String :=
  "Kate fired heavy guns twice. \"Move fast Marcus shouted loud.\" Riley jumped across broken glass. \"Stop right Kate called back.\" Marcus charged against dark doors. Riley struck cold metal walls."

/-- A rigged rewriter that answers every request with the same text. -/
def constRewriter (t : String) : Rewriter := fun _ _ => some t

/-- The empty input of the degenerate-input claims. -/
def emptyText : String := ""

/-- A whitespace-only input. -/
def blankText : String := "   "

/-- The genre tag used by the concrete witnesses (it only shapes the
request shown to the rewriter oracle). -/
def genreStub : String := "thriller"

/-- A metrics report violating pattern count, telling ratio and glue words
simultaneously (C8 witness). -/
def metricsTripleViolation : EvaluationMetrics :=
  { glueWords := jq 45
    passiveVoice := jq 0
    dialogueBalance := jq 40
    showVsTell := jq 15
    wordRepetition := jq 0
    dynamicContent := jq 80
    reflectiveContent := jq 20
    aiPatterns := [{ pattern := "moreover", severity := .medium, count := 1, examples := [] }]
    aiPatternCount := 1
    coherenceIssues := []
    coherencePenalty := 0
    overallScore := jq (323 / 5)
    breakdown :=
      { glueWordsScore := jq (83 / 10)
        showVsTellScore := jq (213 / 10)
        dynamicContentScore := jq 20
        dialogueBonus := 15
        aiPatternBonus := 0
        coherencePenalty := 0 } }

/-- A metrics report meeting every target threshold the claim lists
(glue < 40, passive < 5, dialogue ∈ [30, 50], telling < 10, dynamic > 70,
zero patterns, no coherence issues) with score ≥ 90, yet whose telling
ratio 9 exceeds the sensory-detail rule's stricter bound 8. -/
def metricsSaturatedLoose : EvaluationMetrics :=
  { glueWords := jq 0
    passiveVoice := jq 0
    dialogueBalance := jq 40
    showVsTell := jq 9
    wordRepetition := jq 0
    dynamicContent := jq 80
    reflectiveContent := jq 20
    aiPatterns := []
    aiPatternCount := 0
    coherenceIssues := []
    coherencePenalty := 0
    overallScore := jq (464 / 5)
    breakdown :=
      { glueWordsScore := jq 15
        showVsTellScore := jq (114 / 5)
        dynamicContentScore := jq 20
        dialogueBonus := 15
        aiPatternBonus := 20
        coherencePenalty := 0 } }

/-- As `metricsSaturatedLoose` but with telling ratio 5, meeting the strict
thresholds of the amended claim as well. -/
def metricsSaturatedStrict : EvaluationMetrics :=
  { glueWords := jq 0
    passiveVoice := jq 0
    dialogueBalance := jq 40
    showVsTell := jq 5
    wordRepetition := jq 0
    dynamicContent := jq 80
    reflectiveContent := jq 20
    aiPatterns := []
    aiPatternCount := 0
    coherenceIssues := []
    coherencePenalty := 0
    overallScore := jq (469 / 5)
    breakdown :=
      { glueWordsScore := jq 15
        showVsTellScore := jq (119 / 5)
        dynamicContentScore := jq 20
        dialogueBonus := 15
        aiPatternBonus := 20
        coherencePenalty := 0 } }

/-- A locked lock-table entry used by the C5 witness. -/
def lockStub : MetricLock :=
  { metric := "glueWords", targetValue := 40, currentValue := jq 0,
    locked := true, lockedAt := some 0 }

/-- A small literal controller state with the target already reached
(exercising the early-return branch without any evaluation). -/
def sysStub : Sys :=
  { mgr :=
      { currentText := "x"
        genre := "thriller"
        history :=
          { snapshots := [IterationManager.defaultSnapshot]
            bestEver := IterationManager.initBestEver IterationManager.emptyMetrics
            locks := [lockStub]
            targetReached := true
            totalIterations := 3
            finalScore := jq 95
            totalImprovement := jq 0 } }
    oracleIdx := 0
    enforceCalls := 0 }

/-! ## Verification: JsNum helper lemmas -/

theorem jlt_irrefl (x : JsNum) : jlt x x = false := by
  cases x <;> simp [jlt]

theorem jlt_some_of_le {a b : ℚ} (h : a ≤ b) : jlt (some b) (some a) = false := by
  simp [jlt]
  exact h

theorem jge_jsub_zero {x y : JsNum} (h : jge (jsub x y) (jq 0) = true) :
    ∃ a b, y = some a ∧ x = some b ∧ a ≤ b := by
  cases x with
  | none => simp [jsub, jge] at h
  | some b =>
    cases y with
    | none => simp [jsub, jge] at h
    | some a =>
      refine ⟨a, b, rfl, rfl, ?_⟩
      simpa [jsub, jge, jq, sub_nonneg] using h

/-! ## Verification: the enforcement loop (`enforceExcellence`) -/

namespace ExcellenceEnforcer

open DraftEvaluator

/-- An accepted attempt has a genuine (non-NaN) non-negative score delta
from the evaluated input text to the evaluated improved text. -/
theorem applyStrategy_accepted (rw : Rewriter) (idx : ℕ) (text : String)
    (s : ImprovementStrategy) (genre : String)
    (h : acceptedResult (applyStrategy rw idx text s genre).1 = true) :
    ∃ a b, (evaluate text).overallScore = some a ∧
      (evaluate (applyStrategy rw idx text s genre).1.improvedText).overallScore = some b ∧
      a ≤ b := by
  unfold applyStrategy at h ⊢
  cases hrw : rewriterResponse rw idx text s genre with
  | some t =>
    rw [hrw] at h
    simp only [acceptedResult, Bool.true_and] at h
    obtain ⟨a, b, ha, hb, hab⟩ := jge_jsub_zero h
    exact ⟨a, b, ha, hb, hab⟩
  | none =>
    rw [hrw] at h
    simp [acceptedResult] at h

/-- The final text of the loop is the commit fold over the attempt list. -/
theorem enforceGo_finalText (rw : Rewriter) (genre : String)
    (S : List ImprovementStrategy) :
    ∀ (idx : ℕ) (current : String) (acc : JsNum),
    (enforceGo rw genre S idx current acc).1 =
      commitFold current (enforceGo rw genre S idx current acc).2.1 := by
  induction S with
  | nil => intro idx current acc; simp [enforceGo, commitFold]
  | cons s rest ih =>
    intro idx current acc
    simp only [enforceGo]
    split
    · simp [commitFold]
    · simpa [commitFold] using ih _ _ _

/-- The total improvement of the loop is the accepted-delta sum over the
attempt list. -/
theorem enforceGo_totalImprovement (rw : Rewriter) (genre : String)
    (S : List ImprovementStrategy) :
    ∀ (idx : ℕ) (current : String) (acc : JsNum),
    (enforceGo rw genre S idx current acc).2.2.1 =
      acceptedDeltaSum acc (enforceGo rw genre S idx current acc).2.1 := by
  induction S with
  | nil => intro idx current acc; simp [enforceGo, acceptedDeltaSum]
  | cons s rest ih =>
    intro idx current acc
    simp only [enforceGo]
    split
    · simp [acceptedDeltaSum]
    · simpa [acceptedDeltaSum] using ih _ _ _

/-- Every attempt except the last was made while the current text still
scored below 90: the loop stops the moment 90 is reached. -/
theorem enforceGo_earlyStop (rw : Rewriter) (genre : String)
    (S : List ImprovementStrategy) :
    ∀ (idx : ℕ) (current : String) (acc : JsNum) (i : ℕ),
    i + 1 < (enforceGo rw genre S idx current acc).2.1.length →
    jge (evaluate (commitFold current
      ((enforceGo rw genre S idx current acc).2.1.take (i + 1)))).overallScore (jq 90) =
      false := by
  induction S with
  | nil => intro idx current acc i hi; simp [enforceGo] at hi
  | cons s rest ih =>
    intro idx current acc i hi
    simp only [enforceGo] at hi ⊢
    by_cases hbr : jge (evaluate (stepText current
        (applyStrategy rw idx current s genre).1)).overallScore (jq 90) = true
    · rw [if_pos hbr] at hi
      simp at hi
    · rw [if_neg hbr] at hi ⊢
      simp only [Bool.not_eq_true] at hbr
      cases i with
      | zero => simpa [commitFold] using hbr
      | succ j =>
        have hj : j + 1 < (enforceGo rw genre rest
            (applyStrategy rw idx current s genre).2
            (stepText current (applyStrategy rw idx current s genre).1)
            (stepImprovement acc (applyStrategy rw idx current s genre).1)).2.1.length := by
          simpa using hi
        simpa [commitFold] using ih _ _ _ j hj

/-- Score chain: the loop either returns the input text unchanged, or both
the input and final texts have genuine scores with the final one at least
the initial one. -/
theorem enforceGo_score_chain (rw : Rewriter) (genre : String)
    (S : List ImprovementStrategy) :
    ∀ (idx : ℕ) (current : String) (acc : JsNum),
    (enforceGo rw genre S idx current acc).1 = current ∨
    ∃ a b, (evaluate current).overallScore = some a ∧
      (evaluate (enforceGo rw genre S idx current acc).1).overallScore = some b ∧ a ≤ b := by
  induction S with
  | nil => intro idx current acc; left; simp [enforceGo]
  | cons s rest ih =>
    intro idx current acc
    simp only [enforceGo]
    by_cases hacc : acceptedResult (applyStrategy rw idx current s genre).1 = true
    · obtain ⟨a, b, ha, hb, hab⟩ := applyStrategy_accepted rw idx current s genre hacc
      have hstep : stepText current (applyStrategy rw idx current s genre).1 =
          (applyStrategy rw idx current s genre).1.improvedText := by
        simp [stepText, hacc]
      by_cases hbr : jge (evaluate (stepText current
          (applyStrategy rw idx current s genre).1)).overallScore (jq 90) = true
      · rw [if_pos hbr]
        right
        exact ⟨a, b, ha, by rw [hstep]; exact hb, hab⟩
      · rw [if_neg hbr]
        rcases ih (applyStrategy rw idx current s genre).2
            (stepText current (applyStrategy rw idx current s genre).1)
            (stepImprovement acc (applyStrategy rw idx current s genre).1) with
          heq | ⟨c, d, hc, hd, hcd⟩
        · right
          refine ⟨a, b, ha, ?_, hab⟩
          rw [heq, hstep]
          exact hb
        · right
          rw [hstep] at hc
          rw [hc] at hb
          refine ⟨a, d, ha, hd, ?_⟩
          exact hab.trans ((Option.some.inj hb) ▸ hcd)
    · have hstep : stepText current (applyStrategy rw idx current s genre).1 = current := by
        simp [stepText, hacc]
      by_cases hbr : jge (evaluate (stepText current
          (applyStrategy rw idx current s genre).1)).overallScore (jq 90) = true
      · rw [if_pos hbr]
        left
        exact hstep
      · rw [if_neg hbr]
        rw [hstep]
        exact ih _ _ _

end ExcellenceEnforcer

open DraftEvaluator ExcellenceEnforcer in
/-- C6: `enforceExcellence` commits a strategy's result as the new current
text exactly when its overall-score delta was accepted (≥ 0 on success) —
the final text is the commit fold of the attempt list over the input text;
the returned `totalImprovement` is the sum of the accepted attempts' score
deltas; every attempt but the last happened while the current text still
scored below 90 (the loop stops early at 90); and the evaluated score of
the returned final text is never below the evaluated score of the input
text, for every rewriter behaviour. -/
theorem c6_enforce_commit_policy (rw : Rewriter) (idx : ℕ) (text genre : String)
    (maxStrategies : ℕ) :
    ((enforceExcellence rw idx text genre maxStrategies).1.finalText =
      commitFold text (enforceExcellence rw idx text genre maxStrategies).1.strategies) ∧
    ((enforceExcellence rw idx text genre maxStrategies).1.totalImprovement =
      acceptedDeltaSum (jq 0) (enforceExcellence rw idx text genre maxStrategies).1.strategies) ∧
    (∀ i, i + 1 < (enforceExcellence rw idx text genre maxStrategies).1.strategies.length →
      jge (evaluate (commitFold text
        ((enforceExcellence rw idx text genre maxStrategies).1.strategies.take (i + 1)))).overallScore
        (jq 90) = false) ∧
    jlt (evaluate (enforceExcellence rw idx text genre maxStrategies).1.finalText).overallScore
      (evaluate text).overallScore = false := by
  refine ⟨?_, ?_, ?_, ?_⟩
  · simpa [enforceExcellence] using
      enforceGo_finalText rw genre ((determineStrategies (evaluate text)).take maxStrategies)
        idx text (jq 0)
  · simpa [enforceExcellence] using
      enforceGo_totalImprovement rw genre
        ((determineStrategies (evaluate text)).take maxStrategies) idx text (jq 0)
  · intro i hi
    have := enforceGo_earlyStop rw genre
      ((determineStrategies (evaluate text)).take maxStrategies) idx text (jq 0) i
      (by simpa [enforceExcellence] using hi)
    simpa [enforceExcellence] using this
  · rcases enforceGo_score_chain rw genre
      ((determineStrategies (evaluate text)).take maxStrategies) idx text (jq 0) with
      heq | ⟨a, b, ha, hb, hab⟩
    · simp only [enforceExcellence]
      rw [heq]
      exact jlt_irrefl _
    · simp only [enforceExcellence]
      rw [hb, ha]
      exact jlt_some_of_le hab

theorem jlt_true_elim {x : JsNum} {c : ℚ} (h : jlt x (jq c) = true) :
    ∃ a, x = some a ∧ a < c := by
  cases x with
  | none => simp [jlt] at h
  | some a => exact ⟨a, rfl, by simpa [jlt, jq] using h⟩

theorem jle_true_elim {x : JsNum} {c : ℚ} (h : jle x (jq c) = true) :
    ∃ a, x = some a ∧ a ≤ c := by
  cases x with
  | none => simp [jle] at h
  | some a => exact ⟨a, rfl, by simpa [jle, jq] using h⟩

theorem jge_true_elim {x : JsNum} {c : ℚ} (h : jge x (jq c) = true) :
    ∃ a, x = some a ∧ c ≤ a := by
  cases x with
  | none => simp [jge] at h
  | some a => exact ⟨a, rfl, by simpa [jge, jq] using h⟩

theorem jgt_true_elim {x : JsNum} {c : ℚ} (h : jgt x (jq c) = true) :
    ∃ a, x = some a ∧ c < a := by
  cases x with
  | none => simp [jgt] at h
  | some a => exact ⟨a, rfl, by simpa [jgt, jq] using h⟩

/-! ## Verification: score formula (C7) -/

open DraftEvaluator in
/-- C7 (amended): the composite score follows the stated formula with each
weighted component rounded to one decimal before summation; at the claim's
concrete metric values (glueWords 20, telling 5, dynamicContent 80,
dialogueBalance 40, no patterns, no penalty) the score is 90.8. -/
theorem c7_component_rounded_formula :
    (∀ (g t d dlg cp : ℚ) (pc : ℕ),
      overallScoreOf (jq g) (jq t) (jq d) (jq dlg) pc cp =
        jq (specScoreComponentRounded g t d dlg pc cp)) ∧
    overallScoreOf (jq 20) (jq 5) (jq 80) (jq 40) 0 0 = jq (454 / 5) := by
  have hmain : ∀ (g t d dlg cp : ℚ) (pc : ℕ),
      overallScoreOf (jq g) (jq t) (jq d) (jq dlg) pc cp =
        jq (specScoreComponentRounded g t d dlg pc cp) := by
    intro g t d dlg cp pc
    unfold overallScoreOf calculateScoreBreakdown specScoreComponentRounded
      roundTenthQ clampScoreQ specDialogueBonus specPatternBonus
    simp only [jq, jmul, jsub, jadd, jroundTenth, jclampScore, Option.map_some']
    simp only [jge, jle, jq, Bool.and_eq_true, decide_eq_true_eq]
  refine ⟨hmain, ?_⟩
  rw [hmain]
  norm_num [specScoreComponentRounded, roundTenthQ, clampScoreQ, specDialogueBonus,
    specPatternBonus, jq]

/-! ## Verification: strategy selection (C8) -/

open ExcellenceEnforcer in
/-- The `needed` list is built in non-increasing priority order. -/
theorem neededStrategies_sorted (m : EvaluationMetrics) :
    List.Sorted (fun a b : ImprovementStrategy => b.priority ≤ a.priority)
      (neededStrategies m) := by
  unfold neededStrategies
  split_ifs <;> decide

open ExcellenceEnforcer in
/-- The stable sort of `determineStrategies` leaves the already-sorted
`needed` list unchanged. -/
theorem determineStrategies_eq_needed (m : EvaluationMetrics) :
    determineStrategies m = neededStrategies m :=
  (neededStrategies_sorted m).insertionSort_eq

open ExcellenceEnforcer in
/-- C8: `determineStrategies` always returns a sublist of the catalog in its
declared order — hence sorted by descending priority with ties in the rule
table's declared order — and under simultaneous pattern-count, telling and
glue-word violations the pattern-elimination (priority 10) and
telling-conversion (9) strategies come first, in that order, with
glue-word-reduction (7) somewhere after them. -/
theorem c8_strategy_priority_order :
    (∀ m : EvaluationMetrics, List.Sublist (determineStrategies m) strategyCatalog) ∧
    (∀ m : EvaluationMetrics,
      (determineStrategies m).Pairwise (fun a b => b.priority ≤ a.priority)) ∧
    ai_pattern_eliminator.priority = 10 ∧ show_vs_tell_converter.priority = 9 ∧
    glue_word_reducer.priority = 7 ∧
    (∀ m : EvaluationMetrics, m.aiPatternCount > 0 →
      jgt m.showVsTell (jq 10) = true → jgt m.glueWords (jq 40) = true →
      (determineStrategies m).take 2 = [ai_pattern_eliminator, show_vs_tell_converter] ∧
        glue_word_reducer ∈ (determineStrategies m).drop 2) := by
  have hsub : ∀ m : EvaluationMetrics, List.Sublist (determineStrategies m) strategyCatalog := by
    intro m
    rw [determineStrategies_eq_needed]
    unfold neededStrategies strategyCatalog
    split_ifs <;> decide
  refine ⟨hsub, ?_, rfl, rfl, rfl, ?_⟩
  · intro m
    exact List.Pairwise.sublist (hsub m) (by decide)
  · intro m h1 h2 h3
    rw [determineStrategies_eq_needed]
    unfold neededStrategies
    rw [if_pos h1, if_pos h2, if_pos h3]
    split_ifs <;> simp

/-! ## Verification: saturated-quality scenario (C9) -/

open DraftEvaluator ExcellenceEnforcer in
/-- C9 (amended): a metrics report meeting every target threshold of the
claim *and* the sensory-detail rule's stricter thresholds
(`dynamicContent ≥ 75`, `showVsTell ≤ 8`) selects no strategies, and
`enforceExcellence` on a text evaluating to such a report returns the text
unchanged, an empty attempt list, zero improvement, and makes no rewriter
call. -/
theorem c9_strict_thresholds_no_strategies :
    (∀ m : EvaluationMetrics,
      satisfiesAllTargetsStrict m = true → determineStrategies m = []) ∧
    (∀ (rw : Rewriter) (idx : ℕ) (text genre : String) (k : ℕ),
      satisfiesAllTargetsStrict (evaluate text) = true →
      enforceExcellence rw idx text genre k =
        ({ finalText := text, strategies := [], totalImprovement := jq 0 }, idx)) := by
  have hdet : ∀ m : EvaluationMetrics,
      satisfiesAllTargetsStrict m = true → determineStrategies m = [] := by
    intro m h
    unfold satisfiesAllTargetsStrict at h
    simp only [Bool.and_eq_true, decide_eq_true_eq] at h
    obtain ⟨⟨⟨⟨⟨⟨⟨⟨⟨⟨hglue, hpass⟩, hdlo⟩, hdhi⟩, htell⟩, hdyn⟩, hai⟩, hcoh⟩,
      hscore⟩, hdyn75⟩, htell8⟩ := h
    obtain ⟨g, hg, hg'⟩ := jlt_true_elim hglue
    obtain ⟨p, hp, hp'⟩ := jlt_true_elim hpass
    obtain ⟨dl, hdl, hdl'⟩ := jge_true_elim hdlo
    rw [hdl] at hdhi
    have hdl'' : dl ≤ 50 := by simpa [jle, jq] using hdhi
    obtain ⟨t, ht, ht'⟩ := jlt_true_elim htell
    rw [ht] at htell8
    have ht'' : t ≤ 8 := by simpa [jle, jq] using htell8
    obtain ⟨d, hd, hd'⟩ := jgt_true_elim hdyn
    rw [hd] at hdyn75
    have hd'' : (75 : ℚ) ≤ d := by simpa [jge, jq] using hdyn75
    obtain ⟨s, hs, hs'⟩ := jge_true_elim hscore
    have c1 : ¬ (m.aiPatternCount > 0) := by omega
    have c2 : jgt m.showVsTell (jq 10) = false := by
      rw [ht]; simp [jgt, jq]; linarith
    have c3 : (jlt m.dialogueBalance (jq 30) || jgt m.dialogueBalance (jq 50)) = false := by
      rw [hdl]; simp [jlt, jgt, jq]; constructor <;> linarith
    have c4 : jgt m.glueWords (jq 40) = false := by
      rw [hg]; simp [jgt, jq]; linarith
    have c5 : jlt m.dynamicContent (jq 70) = false := by
      rw [hd]; simp [jlt, jq]; linarith
    have c6 : jgt m.passiveVoice (jq 5) = false := by
      rw [hp]; simp [jgt, jq]; linarith
    have c7 : jlt m.overallScore (jq 90) = false := by
      rw [hs]; simp [jlt, jq]; linarith
    have c8' : (jlt m.dynamicContent (jq 75) || jgt m.showVsTell (jq 8)) = false := by
      rw [hd, ht]; simp [jlt, jgt, jq]; constructor <;> linarith
    rw [determineStrategies_eq_needed]
    simp [neededStrategies, c1, c2, c3, c4, c5, c6, c7, c8']
  refine ⟨hdet, ?_⟩
  intro rw idx text genre k h
  simp only [enforceExcellence]
  rw [hdet _ h]
  simp [enforceGo]

/-! ## Verification: iteration controller (C3, C4, C5, C10) -/

namespace ExcellenceEnforcer

open DraftEvaluator in
/-- Score chain at the `enforceExcellence` interface. -/
theorem enforce_final_chain (rw : Rewriter) (idx : ℕ) (text genre : String) (k : ℕ) :
    (enforceExcellence rw idx text genre k).1.finalText = text ∨
    ∃ a b, (evaluate text).overallScore = some a ∧
      (evaluate (enforceExcellence rw idx text genre k).1.finalText).overallScore = some b ∧
      a ≤ b := by
  simpa [enforceExcellence] using
    enforceGo_score_chain rw genre ((determineStrategies (evaluate text)).take k) idx text (jq 0)

end ExcellenceEnforcer

namespace IterationManager

open DraftEvaluator ExcellenceEnforcer

/-- An early return (counter at maximum) leaves everything unchanged. -/
theorem runIteration_maxed (rw : Rewriter) (k : ℕ) (sys : Sys)
    (h : sys.mgr.history.totalIterations ≥ MAX_ITERATIONS) :
    runIteration rw k sys =
      ({ success := false, improved := false, snapshot := currentSnapshot sys.mgr,
         shouldContinue := false, message := .maxIterationsReached }, sys) := by
  unfold runIteration
  rw [if_pos h]

/-- An early return (target already reached) leaves everything unchanged and
makes no enforcement call. -/
theorem runIteration_target (rw : Rewriter) (k : ℕ) (sys : Sys)
    (h1 : ¬ sys.mgr.history.totalIterations ≥ MAX_ITERATIONS)
    (h2 : sys.mgr.history.targetReached = true) :
    runIteration rw k sys =
      ({ success := true, improved := false, snapshot := currentSnapshot sys.mgr,
         shouldContinue := false, message := .targetAlreadyReached }, sys) := by
  unfold runIteration
  rw [if_neg h1, if_pos h2]

/-- The rejection branch: a nonempty violation list yields exactly the
reverted result, the manager state untouched, only the external-world
counters advanced. -/
theorem runIteration_violation (rw : Rewriter) (k : ℕ) (sys : Sys)
    (h1 : ¬ sys.mgr.history.totalIterations ≥ MAX_ITERATIONS)
    (h2 : ¬ sys.mgr.history.targetReached = true)
    (h3 : (violationsOfCall rw k sys).length > 0) :
    runIteration rw k sys =
      ({ success := false, improved := false, snapshot := currentSnapshot sys.mgr,
         shouldContinue := true,
         message := .lockViolationsMsg (violationsOfCall rw k sys) },
       { sys with oracleIdx := (enforcedCall rw k sys).2,
                  enforceCalls := sys.enforceCalls + 1 }) := by
  unfold runIteration
  rw [if_neg h1, if_neg h2, if_pos h3]

/-- Whatever the branch, `runIteration` keeps every already-locked lock
locked, position by position. -/
theorem runIteration_locks_mono (rw : Rewriter) (k : ℕ) (sys : Sys) (i : ℕ)
    (l : MetricLock) (hl : sys.mgr.history.locks[i]? = some l) :
    ∃ l', (runIteration rw k sys).2.mgr.history.locks[i]? = some l' ∧
      (l.locked = true → l'.locked = true) := by
  unfold runIteration
  split_ifs with hA hB hC
  · exact ⟨l, hl, fun h => h⟩
  · exact ⟨l, hl, fun h => h⟩
  · exact ⟨l, hl, fun h => h⟩
  · refine ⟨updateLock (evaluate (enforcedCall rw k sys).1.finalText)
      (sys.mgr.history.totalIterations + 1) l, ?_, ?_⟩
    · simp only [List.getElem?_map, hl, Option.map_some']
    · intro h
      simp [updateLock, h]

/-- Source `runIteration` can only keep or increment the counter, never beyond the
maximum. -/
theorem runIteration_ti_le (rw : Rewriter) (k : ℕ) (sys : Sys)
    (h : sys.mgr.history.totalIterations ≤ MAX_ITERATIONS) :
    (runIteration rw k sys).2.mgr.history.totalIterations ≤ MAX_ITERATIONS := by
  unfold runIteration
  split_ifs <;> simp_all <;> omega

/-- With the target already reached, `runIteration` stops (no continuation)
and changes nothing — in particular no enforcement call happens. -/
theorem runIteration_stop_of_target (rw : Rewriter) (k : ℕ) (sys : Sys)
    (h : sys.mgr.history.targetReached = true) :
    (runIteration rw k sys).1.shouldContinue = false ∧ (runIteration rw k sys).2 = sys := by
  unfold runIteration
  split_ifs <;> simp_all

/-- The controller's score-coherence invariant: the current text always
evaluates to the latest snapshot's overall score. -/
def scoreCoherent (sys : Sys) : Prop :=
  (evaluate sys.mgr.currentText).overallScore = (currentSnapshot sys.mgr).metrics.overallScore

theorem scoreCoherent_init (text genre : String) : scoreCoherent (initSys text genre) := by
  simp [scoreCoherent, initSys, initManager, currentSnapshot]

/-- Score chain at the `enforcedCall` interface. -/
theorem enforcedCall_final_chain (rw : Rewriter) (k : ℕ) (sys : Sys) :
    (enforcedCall rw k sys).1.finalText = sys.mgr.currentText ∨
    ∃ a b, (evaluate sys.mgr.currentText).overallScore = some a ∧
      (evaluate (enforcedCall rw k sys).1.finalText).overallScore = some b ∧ a ≤ b :=
  enforce_final_chain rw sys.oracleIdx sys.mgr.currentText sys.mgr.genre k

theorem scoreCoherent_step (rw : Rewriter) (k : ℕ) (sys : Sys)
    (h : scoreCoherent sys) : scoreCoherent ((runIteration rw k sys).2) := by
  unfold scoreCoherent at h ⊢
  unfold runIteration
  split_ifs with hA hB hC
  · exact h
  · exact h
  · exact h
  · simp only [currentSnapshot, List.getLastD_eq_getLast?] at h
    simp only [currentSnapshot, List.getLastD_eq_getLast?, List.getLast?_concat,
      Option.getD_some]
    split
    · rfl
    · rename_i himp
      rcases enforcedCall_final_chain rw k sys with heq | ⟨a, b, ha, hb, hab⟩
      · rw [heq]
      · rw [ha, hb]
        rw [hb, ← h, ha] at himp
        simp only [jgt, decide_eq_true_eq, not_lt] at himp
        exact congrArg some (le_antisymm hab himp)

theorem scoreCoherent_runCalls (rw : Rewriter) (text genre : String) (ks : List ℕ) :
    scoreCoherent (runCalls rw text genre ks) := by
  unfold runCalls
  induction ks using List.reverseRecOn with
  | nil => exact scoreCoherent_init text genre
  | append_singleton ks k ih =>
    rw [List.foldl_append]
    exact scoreCoherent_step rw k _ ih

end IterationManager

namespace IterationManager

/-- Locked locks survive any number of trailing `runIteration` calls. -/
theorem foldl_locks_mono (rw : Rewriter) (more : List ℕ) :
    ∀ (sys : Sys) (i : ℕ) (l : MetricLock),
    sys.mgr.history.locks[i]? = some l → l.locked = true →
    ∃ l', (more.foldl (fun sys k => (runIteration rw k sys).2) sys).mgr.history.locks[i]? =
      some l' ∧ l'.locked = true := by
  induction more with
  | nil => exact fun sys i l hl hlock => ⟨l, hl, hlock⟩
  | cons k rest ih =>
    intro sys i l hl hlock
    obtain ⟨l₁, hl₁, hm⟩ := runIteration_locks_mono rw k sys i l hl
    simpa using ih _ i l₁ hl₁ (hm hlock)

/-- Locked locks survive `runUntilTarget`. -/
theorem runUntilTarget_locks_mono (rw : Rewriter) (k : ℕ) (sys : Sys) :
    ∀ (i : ℕ) (l : MetricLock),
    sys.mgr.history.locks[i]? = some l → l.locked = true →
    ∃ l', (runUntilTarget rw k sys).2.mgr.history.locks[i]? = some l' ∧ l'.locked = true := by
  induction sys using runUntilTarget.induct rw k with
  | case1 sys hg ih =>
    intro i l hl hlock
    rw [runUntilTarget, dif_pos hg]
    obtain ⟨l₁, hl₁, hm⟩ := runIteration_locks_mono rw k sys i l hl
    exact ih i l₁ hl₁ (hm hlock)
  | case2 sys hg =>
    intro i l hl hlock
    rw [runUntilTarget, dif_neg hg]
    obtain ⟨l₁, hl₁, hm⟩ := runIteration_locks_mono rw k sys i l hl
    exact ⟨l₁, hl₁, hm hlock⟩

end IterationManager

open IterationManager in
/-- C3: the controller never exceeds 15 committed iterations —
`totalIterations ≤ 15` after any sequence of `runIteration` calls from
construction, and `runUntilTarget` preserves the bound — and once
`targetReached` holds, `runUntilTarget` halts immediately: it returns the
unchanged history and state, performing no further enforcement call (the
enforcement counter and the rewriter call counter are untouched). -/
theorem c3_bounded_termination :
    (∀ (rw : Rewriter) (text genre : String) (ks : List ℕ),
      (runCalls rw text genre ks).mgr.history.totalIterations ≤ MAX_ITERATIONS) ∧
    (∀ (rw : Rewriter) (k : ℕ) (sys : Sys),
      sys.mgr.history.totalIterations ≤ MAX_ITERATIONS →
      (runUntilTarget rw k sys).2.mgr.history.totalIterations ≤ MAX_ITERATIONS) ∧
    (∀ (rw : Rewriter) (k : ℕ) (sys : Sys),
      sys.mgr.history.targetReached = true →
      runUntilTarget rw k sys = (sys.mgr.history, sys)) := by
  refine ⟨?_, ?_, ?_⟩
  · intro rw text genre ks
    unfold runCalls
    induction ks using List.reverseRecOn with
    | nil => simp [initSys, initManager, MAX_ITERATIONS]
    | append_singleton ks k ih =>
      rw [List.foldl_append]
      simpa using runIteration_ti_le rw k _ ih
  · intro rw k sys
    induction sys using runUntilTarget.induct rw k with
    | case1 sys hg ih =>
      intro h
      rw [runUntilTarget, dif_pos hg]
      exact ih (runIteration_ti_le rw k sys h)
    | case2 sys hg =>
      intro h
      rw [runUntilTarget, dif_neg hg]
      exact runIteration_ti_le rw k sys h
  · intro rw k sys h
    have hstop := runIteration_stop_of_target rw k sys h
    have hguard : ¬ (((runIteration rw k sys).1.shouldContinue &&
        (runIteration rw k sys).1.success) = true) := by
      simp [hstop.1]
    rw [runUntilTarget, dif_neg hguard, hstop.2]

open IterationManager in
/-- C4: whenever the enforcement result would violate a locked metric
(`checkLockViolations` nonempty) in a live iteration, `runIteration` rejects
atomically — the manager state (current text, history, counter, locks) is
exactly the state before the call, the result is a failure that names the
violated metrics, and `shouldContinue` is `true`. -/
theorem c4_lock_violation_rejects_atomically (rw : Rewriter) (k : ℕ) (sys : Sys)
    (h1 : sys.mgr.history.totalIterations < MAX_ITERATIONS)
    (h2 : sys.mgr.history.targetReached = false)
    (h3 : violationsOfCall rw k sys ≠ []) :
    (runIteration rw k sys).2.mgr = sys.mgr ∧
    (runIteration rw k sys).1.success = false ∧
    (runIteration rw k sys).1.shouldContinue = true ∧
    (runIteration rw k sys).1.message =
      .lockViolationsMsg (violationsOfCall rw k sys) ∧
    (runIteration rw k sys).1.snapshot = currentSnapshot sys.mgr := by
  have h1' : ¬ sys.mgr.history.totalIterations ≥ MAX_ITERATIONS := by omega
  have h2' : ¬ sys.mgr.history.targetReached = true := by simp [h2]
  have h3' : (violationsOfCall rw k sys).length > 0 := List.length_pos.mpr h3
  rw [runIteration_violation rw k sys h1' h2' h3']
  exact ⟨rfl, rfl, rfl, rfl, rfl⟩

open IterationManager in
/-- C5: lock monotonicity — a lock that is locked (at construction or after
any iteration) is still locked, at the same position of the lock table,
after one more `runIteration`, after any further sequence of calls in a run,
and after `runUntilTarget`. -/
theorem c5_lock_monotonicity :
    (∀ (rw : Rewriter) (k : ℕ) (sys : Sys) (i : ℕ) (l l' : MetricLock),
      sys.mgr.history.locks[i]? = some l →
      (runIteration rw k sys).2.mgr.history.locks[i]? = some l' →
      l.locked = true → l'.locked = true) ∧
    (∀ (rw : Rewriter) (text genre : String) (ks more : List ℕ) (i : ℕ) (l l' : MetricLock),
      (runCalls rw text genre ks).mgr.history.locks[i]? = some l →
      (runCalls rw text genre (ks ++ more)).mgr.history.locks[i]? = some l' →
      l.locked = true → l'.locked = true) ∧
    (∀ (rw : Rewriter) (k : ℕ) (sys : Sys) (i : ℕ) (l l' : MetricLock),
      sys.mgr.history.locks[i]? = some l →
      (runUntilTarget rw k sys).2.mgr.history.locks[i]? = some l' →
      l.locked = true → l'.locked = true) := by
  refine ⟨?_, ?_, ?_⟩
  · intro rw k sys i l l' hl hl' hlock
    obtain ⟨l₁, hl₁, hm⟩ := runIteration_locks_mono rw k sys i l hl
    rw [hl'] at hl₁
    exact (Option.some.inj hl₁) ▸ hm hlock
  · intro rw text genre ks more i l l' hl hl' hlock
    obtain ⟨l₁, hl₁, hlk⟩ := foldl_locks_mono rw more (runCalls rw text genre ks) i l hl hlock
    rw [show runCalls rw text genre (ks ++ more) =
      more.foldl (fun sys k => (runIteration rw k sys).2) (runCalls rw text genre ks) by
        unfold runCalls; rw [List.foldl_append]] at hl'
    rw [hl'] at hl₁
    exact (Option.some.inj hl₁) ▸ hlk
  · intro rw k sys i l l' hl hl' hlock
    obtain ⟨l₁, hl₁, hlk⟩ := runUntilTarget_locks_mono rw k sys i l hl hlock
    rw [hl'] at hl₁
    exact (Option.some.inj hl₁) ▸ hlk

open IterationManager DraftEvaluator in
/-- C10 (counterexample to the claim as stated): in no run, under no
rewriter behaviour, does `getSummary().finalScore` differ from the evaluated
overall score of `getCurrentText()` — the two always coincide. -/
theorem c10_final_score_negation : ¬ claimFinalScoreCanDiffer := by
  rintro ⟨rw, text, genre, ks, h⟩
  apply h
  have hinv := scoreCoherent_runCalls rw text genre ks
  unfold scoreCoherent at hinv
  simpa [getSummary] using hinv.symm

/-! ## Verification: concrete evaluations

`Rat` arithmetic is `@[irreducible]` in the ambient library, which blocks
only the elaborator's evaluation, not the kernel; the local attribute
restores reducibility so that `decide` can evaluate the embedded code. -/

section

attribute [local semireducible] Rat.add Rat.mul Rat.sub Rat.inv Rat.ofScientific

open DraftEvaluator in
/-- C1 (code bug at the empty input): `evaluate` divides 0/0 for the empty
and the whitespace-only string, so `overallScore` is NaN (`none`) — not a
number in [0, 100] as the claim and the field's own documentation state. -/
theorem c1_empty_score_not_in_range :
    (evaluate emptyText).overallScore = none ∧ (evaluate blankText).overallScore = none := by
  decide

open DraftEvaluator in
/-- C2 (code bug): for the empty input every ratio metric of `evaluate` is
NaN (`none`), not 0, and so is the overall score; no error is raised (the
function is total), but the div-by-zero guard the specification requires is
absent. -/
theorem c2_empty_text_ratios_nan :
    (evaluate emptyText).glueWords = none ∧ (evaluate emptyText).passiveVoice = none ∧
    (evaluate emptyText).dialogueBalance = none ∧ (evaluate emptyText).showVsTell = none ∧
    (evaluate emptyText).wordRepetition = none ∧ (evaluate emptyText).dynamicContent = none ∧
    (evaluate emptyText).reflectiveContent = none ∧ (evaluate emptyText).overallScore = none := by
  decide

open DraftEvaluator in
/-- C7 (counterexample to the claim's exact formula): at glueWords 20.2,
telling 4.12, dynamicContent 79.88, dialogueBalance 40, zero patterns and
zero penalty, the code computes 91.0 while the claimed formula gives 90.9 —
the code rounds each weighted component before summing. -/
theorem c7_formula_counterexample :
    overallScoreOf (jq (101 / 5)) (jq (103 / 25)) (jq (1997 / 25)) (jq 40) 0 0 = jq 91 ∧
    specScoreFormula (101 / 5) (103 / 25) (1997 / 25) 40 0 0 = 909 / 10 ∧
    jq (91 : ℚ) ≠ jq (909 / 10) := by
  decide

open ExcellenceEnforcer in
/-- C9 (counterexample): a metrics report meeting every threshold the claim
lists, with score ≥ 90, for which `determineStrategies` is nonetheless
nonempty — the sensory-detail rule fires at telling ratio 9 > 8. -/
theorem c9_saturated_counterexample :
    jlt metricsSaturatedLoose.glueWords (jq 40) = true ∧
    jlt metricsSaturatedLoose.passiveVoice (jq 5) = true ∧
    jge metricsSaturatedLoose.dialogueBalance (jq 30) = true ∧
    jle metricsSaturatedLoose.dialogueBalance (jq 50) = true ∧
    jlt metricsSaturatedLoose.showVsTell (jq 10) = true ∧
    jgt metricsSaturatedLoose.dynamicContent (jq 70) = true ∧
    metricsSaturatedLoose.aiPatternCount = 0 ∧
    metricsSaturatedLoose.coherenceIssues = [] ∧
    jge metricsSaturatedLoose.overallScore (jq 90) = true ∧
    determineStrategies metricsSaturatedLoose = [sensory_detail_enhancer] := by
  decide

open ExcellenceEnforcer in
/-- Witness for C8 at a concrete triple-violation report. -/
theorem c8_strategy_priority_order_witness :
    (determineStrategies metricsTripleViolation).take 2 =
      [ai_pattern_eliminator, show_vs_tell_converter] ∧
    glue_word_reducer ∈ (determineStrategies metricsTripleViolation).drop 2 :=
  c8_strategy_priority_order.2.2.2.2.2 metricsTripleViolation (by decide) (by decide)
    (by decide)

open IterationManager in
/-- Witness for C3 at a concrete target-reached state. -/
theorem c3_bounded_termination_witness :
    (runUntilTarget (constRewriter witnessBase) 3 sysStub).2.mgr.history.totalIterations ≤
      MAX_ITERATIONS ∧
    runUntilTarget (constRewriter witnessBase) 3 sysStub = (sysStub.mgr.history, sysStub) :=
  ⟨c3_bounded_termination.2.1 (constRewriter witnessBase) 3 sysStub (by decide),
   c3_bounded_termination.2.2 (constRewriter witnessBase) 3 sysStub (by decide)⟩

open IterationManager in
/-- Witness for C5: the concrete locked entry of `sysStub` stays locked
through a `runIteration`. -/
theorem c5_lock_monotonicity_witness : lockStub.locked = true :=
  c5_lock_monotonicity.1 (constRewriter witnessBase) 3 sysStub 0 lockStub lockStub
    (by decide) (by decide) (by decide)

end

section

attribute [local semireducible] Rat.add Rat.mul Rat.sub Rat.inv Rat.ofScientific

set_option maxRecDepth 100000 in
open DraftEvaluator ExcellenceEnforcer in
/-- Witness for C9 (amended): the strict report selects no strategies, and
a concrete text whose evaluation meets every strict threshold passes
through `enforceExcellence` unchanged. -/
theorem c9_strict_thresholds_no_strategies_witness :
    determineStrategies metricsSaturatedStrict = [] ∧
    enforceExcellence (constRewriter witnessBase) 0 witnessSaturated genreStub 3 =
      ({ finalText := witnessSaturated, strategies := [], totalImprovement := jq 0 }, 0) :=
  ⟨c9_strict_thresholds_no_strategies.1 metricsSaturatedStrict (by decide),
   c9_strict_thresholds_no_strategies.2 (constRewriter witnessBase) 0 witnessSaturated
     "thriller" 3 (by decide)⟩

end

section

attribute [local semireducible] Rat.add Rat.mul Rat.sub Rat.inv Rat.ofScientific

set_option maxRecDepth 1000000 in
open IterationManager in
/-- Witness for C4: from `witnessBase` (which locks `aiPatternCount = 0` at
construction) with a rigged rewriter returning `witnessPattern` (score delta
0, so the enforcement loop accepts it, but it reintroduces one AI pattern),
`runIteration` reports exactly the `aiPatternCount` violation and leaves the
manager state untouched. -/
theorem c4_lock_violation_rejects_atomically_witness :
    violationsOfCall (constRewriter witnessPattern) 3 (initSys witnessBase genreStub) =
      ["aiPatternCount"] ∧
    (runIteration (constRewriter witnessPattern) 3 (initSys witnessBase genreStub)).2.mgr =
      (initSys witnessBase genreStub).mgr ∧
    (runIteration (constRewriter witnessPattern) 3
      (initSys witnessBase genreStub)).1.success = false ∧
    (runIteration (constRewriter witnessPattern) 3
      (initSys witnessBase genreStub)).1.shouldContinue = true ∧
    (runIteration (constRewriter witnessPattern) 3
      (initSys witnessBase genreStub)).1.message =
      .lockViolationsMsg (violationsOfCall (constRewriter witnessPattern) 3
        (initSys witnessBase genreStub)) := by
  have happ := c4_lock_violation_rejects_atomically (constRewriter witnessPattern) 3
    (initSys witnessBase genreStub) (by decide) (by decide) (by decide)
  exact ⟨by decide, happ.1, happ.2.1, happ.2.2.1, happ.2.2.2.1⟩

end

section

attribute [local semireducible] Rat.add Rat.mul Rat.sub Rat.inv Rat.ofScientific

set_option maxRecDepth 1000000 in
open DraftEvaluator ExcellenceEnforcer in
/-- Witness for C6 at a concrete two-attempt run: the first attempt is not
the last, so the text current after it still scored below 90. -/
theorem c6_enforce_commit_policy_witness :
    jge (evaluate (commitFold witnessBase
      ((enforceExcellence (constRewriter witnessRepetition) 0 witnessBase genreStub
        3).1.strategies.take 1))).overallScore (jq 90) = false :=
  (c6_enforce_commit_policy (constRewriter witnessRepetition) 0 witnessBase genreStub
    3).2.2.1 0 (by decide)

set_option maxRecDepth 1000000 in
open IterationManager DraftEvaluator ExcellenceEnforcer in
/-- C10 (amended): after a committed, non-improving iteration the controller
does exhibit the split the claim describes — `getCurrentText()` still
returns the pre-iteration text while the appended snapshot and
`history.finalScore` carry the enforcement result's text and metrics (here
with a different `wordRepetition`) — but `getSummary().finalScore` can
never differ from the evaluated overall score of `getCurrentText()`: the
two coincide in every run, under every rewriter behaviour. -/
theorem c10_snapshot_discrepancy_amended :
    (∀ (rw : Rewriter) (text genre : String) (ks : List ℕ),
      (getSummary (runCalls rw text genre ks).mgr).finalScore =
        (evaluate (runCalls rw text genre ks).mgr.currentText).overallScore) ∧
    ((runIteration (constRewriter witnessRepetition) 3
        (initSys witnessBase genreStub)).1.success = true ∧
      (runIteration (constRewriter witnessRepetition) 3
        (initSys witnessBase genreStub)).1.improved = false ∧
      (runCalls (constRewriter witnessRepetition) witnessBase genreStub [3]).mgr.currentText =
        witnessBase ∧
      (currentSnapshot (runCalls (constRewriter witnessRepetition) witnessBase genreStub
        [3]).mgr).text = witnessRepetition ∧
      (currentSnapshot (runCalls (constRewriter witnessRepetition) witnessBase genreStub
          [3]).mgr).metrics.wordRepetition ≠
        (evaluate (runCalls (constRewriter witnessRepetition) witnessBase genreStub
          [3]).mgr.currentText).wordRepetition ∧
      (runCalls (constRewriter witnessRepetition) witnessBase genreStub
        [3]).mgr.history.totalIterations = 1 ∧
      (runCalls (constRewriter witnessRepetition) witnessBase genreStub
          [3]).mgr.history.finalScore =
        (currentSnapshot (runCalls (constRewriter witnessRepetition) witnessBase genreStub
          [3]).mgr).metrics.overallScore) := by
  refine ⟨?_, ?_⟩
  · intro rw text genre ks
    have hinv := scoreCoherent_runCalls rw text genre ks
    unfold scoreCoherent at hinv
    simpa [getSummary] using hinv.symm
  · exact ⟨by decide, by decide, by decide, by decide, by decide, by decide, by decide⟩

end
